import Mathlib

/-!
Verification development for the `cont` command-line tool
(`src/my_cont/__main__.py`).

The tool starts preconfigured development containers through a container
engine client.  We embed the program shallowly: the container engine is a
mock (`EngineState`) holding oracle response functions for image pulls,
container runs and container inspections, plus the concrete list of
existing networks.  Every engine call, sleep and printed line is recorded
in an operation trace (`Op`), and each Python function becomes a function
in a state-plus-exception monad `M` over a `World` that carries the engine
state, the number of inspections performed so far, and the trace.

The polling loop `wait_healtcheck` is given explicit fuel: running out of
fuel returns `false` (the loop is still running at that bound), which lets
us reason about non-termination without partial functions.
-/

/-- Errors raised by the container engine client, plus the Python
`IndexError` raised by `pull_img` when `RepoTags` is empty. -/
inductive Err
  | notFound
  | apiError (code : Nat)
  | indexError
deriving DecidableEq, Repr

/-- An image as returned by `docker.images.pull`: we keep the only
attribute the program reads, `attrs["RepoTags"]`. -/
structure Image where
  repoTags : List String
deriving DecidableEq, Repr

/-- A container handle as returned by `docker.containers.run`: the fields
the program reads (`name`, `short_id`, `id`). -/
structure ContainerInfo where
  cname : String
  shortId : String
  id : String
deriving DecidableEq, Repr

/-- The attributes of an inspected container that the program reads:
`attrs["State"]["Health"]["Status"]` and
`attrs["NetworkSettings"]["Networks"]` (network name paired with the
container IP address on that network). -/
structure ContainerAttrs where
  healthStatus : String
  networks : List (String × String)
deriving DecidableEq, Repr

/-- A healthcheck `test` entry: either a shell string or a `CMD` list. -/
inductive HCTest
  | str (s : String)
  | cmd (args : List String)
deriving DecidableEq, Repr

/-- The healthcheck dictionary passed to `docker.containers.run`
(intervals and timeouts in nanoseconds, as in the source). -/
structure Healthcheck where
  test : HCTest
  interval : Nat
  timeout : Nat
  retries : Nat
deriving DecidableEq, Repr

/-- One volume entry: `{volume: {"bind": bind, "mode": mode}}`. -/
structure VolumeMount where
  volume : String
  bind : String
  mode : String
deriving DecidableEq, Repr

/-- The keyword arguments of a `docker.containers.run` call. -/
structure RunConfig where
  name : Option String
  image : String
  remove : Bool
  detach : Bool
  network : String
  hostname : String
  command : Option (List String)
  healthcheck : Healthcheck
  ports : List (String × Nat)
  volumes : Option (List VolumeMount)
  environment : List (String × String)
deriving DecidableEq, Repr

/-- One observable step of the program: an engine call, a sleep
(milliseconds), or a printed console line. -/
inductive Op
  | imagesPull (repo tag : String)
  | networksGet (network : String)
  | networksCreate (network : String) (attachable : Bool)
  | containersRun (cfg : RunConfig)
  | containersGet (cid : String)
  | sleep (ms : Nat)
  | print (line : String)
deriving DecidableEq, Repr

/-- The mock container engine.  `registry`, `runResp` and `inspectResp`
are oracles fixing what the engine answers; `inspectResp` additionally
depends on how many inspections happened before, so a container's health
status can evolve over the polling loop.  `networks` is the concrete
engine network state, mutated by `networks.create`. -/
structure EngineState where
  registry : String → String → Except Err Image
  networks : List String
  runResp : RunConfig → Except Err ContainerInfo
  inspectResp : String → Nat → Except Err ContainerAttrs

/-- The whole program state: engine, number of `containers.get` calls
issued so far, and the trace of operations. -/
structure World where
  eng : EngineState
  polls : Nat
  trace : List Op

/-- A fresh world over a given engine. -/
def World.init (eng : EngineState) : World :=
  { eng := eng, polls := 0, trace := [] }

/-- The state-plus-exception monad the embedded program runs in. -/
def M (α : Type) : Type := World → Except Err α × World

/-- Monadic return. -/
def mpure {α : Type} (a : α) : M α := fun w => (Except.ok a, w)

/-- Raise an exception. -/
def mfail {α : Type} (e : Err) : M α := fun w => (Except.error e, w)

/-- Monadic bind: exceptions short-circuit, the state is kept. -/
def mbind {α β : Type} (m : M α) (f : α → M β) : M β := fun w =>
  match m w with
  | (Except.ok a, w2) => f a w2
  | (Except.error e, w2) => (Except.error e, w2)

instance : Monad M where
  pure := mpure
  bind := mbind

/-- `docker.images.pull(repo, tag=tag)`: asks the registry oracle. -/
def images_pull (repo tag : String) : M Image := fun w =>
  let w2 : World := { w with trace := w.trace ++ [Op.imagesPull repo tag] }
  match w.eng.registry repo tag with
  | Except.ok img => (Except.ok img, w2)
  | Except.error e => (Except.error e, w2)

/-- `docker.networks.get(network)`: succeeds iff the network exists,
otherwise raises `NotFound`. -/
def networks_get (network : String) : M Unit := fun w =>
  let w2 : World := { w with trace := w.trace ++ [Op.networksGet network] }
  if network ∈ w.eng.networks then (Except.ok (), w2)
  else (Except.error Err.notFound, w2)

/-- `docker.networks.create(network, attachable=True)`: records the
network in the engine state. -/
def networks_create (network : String) (attachable : Bool) : M Unit := fun w =>
  (Except.ok (),
    { w with
      eng := { w.eng with networks := network :: w.eng.networks }
      trace := w.trace ++ [Op.networksCreate network attachable] })

/-- `docker.containers.run(**cfg)`: asks the run oracle. -/
def containers_run (cfg : RunConfig) : M ContainerInfo := fun w =>
  let w2 : World := { w with trace := w.trace ++ [Op.containersRun cfg] }
  match w.eng.runResp cfg with
  | Except.ok c => (Except.ok c, w2)
  | Except.error e => (Except.error e, w2)

/-- `docker.containers.get(cid)`: asks the inspection oracle at the
current poll index and advances the poll counter. -/
def containers_get (cid : String) : M ContainerAttrs := fun w =>
  let w2 : World :=
    { w with polls := w.polls + 1, trace := w.trace ++ [Op.containersGet cid] }
  match w.eng.inspectResp cid w.polls with
  | Except.ok a => (Except.ok a, w2)
  | Except.error e => (Except.error e, w2)

/-- `time.sleep`: recorded in the trace (duration in milliseconds). -/
def msleep (ms : Nat) : M Unit := fun w =>
  (Except.ok (), { w with trace := w.trace ++ [Op.sleep ms] })

/-- One printed console line (consecutive `secho(..., nl=False)` calls of
the source are merged into the line they build). -/
def mprint (line : String) : M Unit := fun w =>
  (Except.ok (), { w with trace := w.trace ++ [Op.print line] })

/-- `wait_healtcheck(docker, container_id)`: poll the container until its
health status is "healthy", sleeping 0.1 s after every poll, then print
the healthy message.  `fuel` bounds the number of iterations we observe;
returning `false` means the loop was still running at that bound. -/
def wait_healtcheck (cid : String) : Nat → M Bool
  | 0 => mpure false
  | fuel + 1 =>
    mbind (containers_get cid) fun container =>
      mbind (msleep 100) fun _ =>
        if container.healthStatus = "healthy" then
          mbind (mprint "Container is healthy!") fun _ => mpure true
        else
          wait_healtcheck cid fuel

/-- `declare_network(docker, network)`: look the network up and create it
(attachable) only when the lookup raises `NotFound`; any other lookup
error propagates. -/
def declare_network (network : String) : M Unit := fun w =>
  match networks_get network w with
  | (Except.ok _, w2) => (Except.ok (), w2)
  | (Except.error Err.notFound, w2) => networks_create network true w2
  | (Except.error e, w2) => (Except.error e, w2)

/-- `pull_img(docker, repo, tag)`: pull the image and return
`img.attrs["RepoTags"][0]`; the indexing raises when the list is empty. -/
def pull_img (repo tag : String) : M String :=
  mbind (images_pull repo tag) fun img =>
    match img.repoTags.head? with
    | some t => mpure t
    | none => mfail Err.indexError

/-- The per-network loop body of `print_network_settings`. -/
def print_networks : List (String × String) → M Unit
  | [] => mpure ()
  | p :: rest =>
    mbind (mprint ("\t" ++ p.1 ++ ": " ++ p.2)) fun _ => print_networks rest

/-- `print_network_settings(docker, container_id)`: print the header,
inspect the container, and print every attached network with the
container's IP address on it. -/
def print_network_settings (cid : String) : M Unit :=
  mbind (mprint "Container IPs:") fun _ =>
    mbind (containers_get cid) fun container =>
      print_networks container.networks

/-- `container_ready(docker, cont)`: announce the started container, wait
for the healthcheck, then print the network settings.  When the wait loop
is still running at the fuel bound nothing further happens. -/
def container_ready (cont : ContainerInfo) (fuel : Nat) : M Bool :=
  mbind (mprint ("Container " ++ cont.cname ++ " with id " ++ cont.shortId
      ++ " successfully started")) fun _ =>
    mbind (wait_healtcheck cont.id fuel) fun finished =>
      if finished then
        mbind (print_network_settings cont.id) fun _ => mpure true
      else
        mpure false

/-- The pipeline every subcommand repeats: pull the image, ensure the
network exists, run the container built from the pulled tag, and hand it
to `container_ready`. -/
def service_cmd (repo tag network : String) (cfgOf : String → RunConfig)
    (fuel : Nat) : M Bool :=
  mbind (pull_img repo tag) fun img =>
    mbind (declare_network network) fun _ =>
      mbind (containers_run (cfgOf img)) fun container =>
        container_ready container fuel

/-- Default network name (`DEFAULT_NETWORK_NAME`). -/
def DEFAULT_NETWORK_NAME : String := "cont_net"

/-- Python `name or dflt` for an optional string: `or` falls back on any
falsy value, so both `None` and the empty string yield the default. -/
def pyOr (name : Option String) (dflt : String) : String :=
  match name with
  | none => dflt
  | some s => if s = "" then dflt else s

/-- The `docker.containers.run` keyword arguments of the `pg` command. -/
def pgConfig (name : Option String) (db_name network : String) (port : Nat)
    (img : String) : RunConfig :=
  { name := name
    image := img
    remove := true
    detach := true
    network := network
    hostname := pyOr name "pg"
    command := none
    healthcheck :=
      { test := HCTest.str ("pg_isready -U " ++ db_name)
        interval := 2 * 1000 * 1000000
        timeout := 3 * 1000 * 1000000
        retries := 40 }
    ports := [("5432", port)]
    volumes := name.map fun n =>
      [{ volume := n ++ "-pg-db", bind := "/var/lib/postgresql/data", mode := "rw" }]
    environment :=
      [("POSTGRES_PASSWORD", db_name), ("POSTGRES_USER", db_name),
       ("POSTGRES_DB", db_name)] }

/-- The `pg` subcommand. -/
def pg (name : Option String) (db_name network : String) (port : Nat)
    (tag : String) (fuel : Nat) : M Bool :=
  service_cmd "postgres" tag network (pgConfig name db_name network port) fuel

/-- The `docker.containers.run` keyword arguments of `timescale`. -/
def timescaleConfig (name : Option String) (db_name network : String)
    (port : Nat) (img : String) : RunConfig :=
  { name := name
    image := img
    remove := true
    detach := true
    network := network
    hostname := pyOr name "timescale"
    command := none
    healthcheck :=
      { test := HCTest.str ("pg_isready -U " ++ db_name)
        interval := 2 * 1000 * 1000000
        timeout := 3 * 1000 * 1000000
        retries := 40 }
    ports := [("5432", port)]
    volumes := name.map fun n =>
      [{ volume := n ++ "-ts-db", bind := "/var/lib/postgresql/data", mode := "rw" }]
    environment :=
      [("POSTGRES_PASSWORD", db_name), ("POSTGRES_USER", db_name),
       ("POSTGRES_DB", db_name)] }

/-- The `timescale` subcommand. -/
def timescale (name : Option String) (db_name : String) (port : Nat)
    (network tag : String) (fuel : Nat) : M Bool :=
  service_cmd "timescale/timescaledb" tag network
    (timescaleConfig name db_name network port) fuel

/-- The `docker.containers.run` keyword arguments of `rmq`. -/
def rmqConfig (name : Option String) (port ui_port : Nat)
    (username password network : String) (img : String) : RunConfig :=
  { name := name
    image := img
    remove := true
    detach := true
    network := network
    hostname := pyOr name "rmq"
    command := none
    healthcheck :=
      { test := HCTest.str "rabbitmq-diagnostics check_running -q"
        interval := 3 * 1000 * 1000000
        timeout := 3 * 1000 * 1000000
        retries := 50 }
    ports := [("5672", port), ("15672", ui_port)]
    volumes := none
    environment :=
      [("RABBITMQ_DEFAULT_USER", username), ("RABBITMQ_DEFAULT_PASS", password),
       ("RABBITMQ_DEFAULT_VHOST", "/")] }

/-- The `rmq` subcommand. -/
def rmq (name : Option String) (port ui_port : Nat)
    (username password network tag : String) (fuel : Nat) : M Bool :=
  service_cmd "rabbitmq" tag network
    (rmqConfig name port ui_port username password network) fuel

/-- The `docker.containers.run` keyword arguments of `redis`. -/
def redisConfig (name : Option String) (port : Nat) (network : String)
    (img : String) : RunConfig :=
  { name := name
    image := img
    remove := true
    detach := true
    network := network
    hostname := pyOr name "redis"
    command := none
    healthcheck :=
      { test := HCTest.str "redis-cli ping"
        interval := 1 * 1000 * 1000000
        timeout := 3 * 1000 * 1000000
        retries := 50 }
    ports := [("6379", port)]
    volumes := none
    environment := [] }

/-- The `redis` subcommand. -/
def redis (name : Option String) (port : Nat) (network tag : String)
    (fuel : Nat) : M Bool :=
  service_cmd "redis" tag network (redisConfig name port network) fuel

/-- The `docker.containers.run` keyword arguments of `scylla`. -/
def scyllaConfig (name : Option String) (port : Nat) (network : String)
    (img : String) : RunConfig :=
  { name := name
    image := img
    remove := true
    detach := true
    network := network
    hostname := pyOr name "scylla"
    command := some ["--skip-wait-for-gossip-to-settle", "0"]
    healthcheck :=
      { test := HCTest.str "cqlsh -e \x27select * from system.local\x27"
        interval := 5 * 1000 * 1000000
        timeout := 5 * 1000 * 1000000
        retries := 60 }
    ports := [("9042", port)]
    volumes := name.map fun n =>
      [{ volume := n ++ "-scylla-db", bind := "/var/lib/scylla", mode := "rw" }]
    environment := [] }

/-- The `scylla` subcommand. -/
def scylla (name : Option String) (port : Nat) (network tag : String)
    (fuel : Nat) : M Bool :=
  service_cmd "scylladb/scylla" tag network (scyllaConfig name port network) fuel

/-- The `docker.containers.run` keyword arguments of `nats`. -/
def natsConfig (name : Option String) (port : Nat) (network : String)
    (img : String) : RunConfig :=
  { name := name
    image := img
    remove := true
    detach := true
    network := network
    hostname := pyOr name "nats"
    command := some ["-m", "8222", "--jetstream"]
    healthcheck :=
      { test := HCTest.cmd
          ["CMD", "sh", "-c",
           "wget http://localhost:8222/healthz -q -O - | xargs | grep ok || exit 1"]
        interval := 5 * 1000 * 1000000
        timeout := 3 * 1000 * 1000000
        retries := 20 }
    ports := [("4222", port)]
    volumes := none
    environment := [] }

/-- The `nats` subcommand. -/
def nats (name : Option String) (port : Nat) (network tag : String)
    (fuel : Nat) : M Bool :=
  service_cmd "nats" tag network (natsConfig name port network) fuel

/-- The `docker.containers.run` keyword arguments of `zk`. -/
def zkConfig (name : Option String) (network : String) (port : Nat)
    (img : String) : RunConfig :=
  { name := name
    image := img
    remove := true
    detach := true
    network := network
    hostname := pyOr name "zk"
    command := none
    healthcheck :=
      { test := HCTest.str "zkServer.sh status"
        interval := 1 * 1000 * 1000000
        timeout := 3 * 1000 * 1000000
        retries := 30 }
    ports := [("2181", port)]
    volumes := none
    environment :=
      [("ALLOW_ANONYMOUS_LOGIN", "yes"), ("ZOO_LOG_LEVEL", "ERROR")] }

/-- The `zk` subcommand. -/
def zk (name : Option String) (network : String) (port : Nat) (tag : String)
    (fuel : Nat) : M Bool :=
  service_cmd "bitnami/zookeeper" tag network (zkConfig name network port) fuel

/-- The `docker.containers.run` keyword arguments of `kafka`; the
advertised controller quorum voter uses the computed hostname. -/
def kafkaConfig (name : Option String) (network : String) (port : Nat)
    (img : String) : RunConfig :=
  { name := name
    image := img
    remove := true
    detach := true
    network := network
    hostname := pyOr name "kafka"
    command := none
    healthcheck :=
      { test := HCTest.str "kafka-topics.sh --list --bootstrap-server localhost:9092"
        interval := 1 * 1000 * 1000000
        timeout := 3 * 1000 * 1000000
        retries := 30 }
    ports := [("9094", port)]
    volumes := none
    environment :=
      [("KAFKA_CFG_NODE_ID", "0"),
       ("KAFKA_CFG_PROCESS_ROLES", "controller,broker"),
       ("KAFKA_CFG_LISTENERS",
        "PLAINTEXT://:9092,CONTROLLER://:9093,EXTERNAL://:9094"),
       ("KAFKA_CFG_ADVERTISED_LISTENERS",
        "PLAINTEXT://kafka:9092,EXTERNAL://localhost:9094"),
       ("KAFKA_CFG_LISTENER_SECURITY_PROTOCOL_MAP",
        "CONTROLLER:PLAINTEXT,EXTERNAL:PLAINTEXT,PLAINTEXT:PLAINTEXT"),
       ("KAFKA_CFG_CONTROLLER_QUORUM_VOTERS",
        "0@" ++ pyOr name "kafka" ++ ":9093"),
       ("KAFKA_CFG_CONTROLLER_LISTENER_NAMES", "CONTROLLER"),
       ("KAFKA_CFG_AUTO_CREATE_TOPICS_ENABLE", "true"),
       ("KAFKA_CFG_OFFSETS_TOPIC_REPLICATION_FACTOR", "1")] }

/-- The `kafka` subcommand. -/
def kafka (name : Option String) (network : String) (port : Nat)
    (tag : String) (fuel : Nat) : M Bool :=
  service_cmd "bitnami/kafka" tag network (kafkaConfig name network port) fuel

/-- The container-run configurations recorded in a trace. -/
def runCalls (t : List Op) : List RunConfig :=
  t.filterMap fun o =>
    match o with
    | Op.containersRun c => some c
    | _ => none

/-- The image-pull requests recorded in a trace. -/
def pullCalls (t : List Op) : List (String × String) :=
  t.filterMap fun o =>
    match o with
    | Op.imagesPull repo tag => some (repo, tag)
    | _ => none

/-- The trace of `n` iterations of the polling loop: inspect, then sleep
0.1 s, repeated. -/
def pollTrace (cid : String) : Nat → List Op
  | 0 => []
  | n + 1 => Op.containersGet cid :: Op.sleep 100 :: pollTrace cid n

/-- The trace `declare_network` appends: a lookup, followed by a create
call exactly when the network does not exist. -/
def netExt (network : String) (nets : List String) : List Op :=
  if network ∈ nets then [Op.networksGet network]
  else [Op.networksGet network, Op.networksCreate network true]

/-- The console lines `print_network_settings` emits for the attached
networks: name and IP address of each. -/
def ipLines (nets : List (String × String)) : List Op :=
  nets.map fun p => Op.print ("\t" ++ p.1 ++ ": " ++ p.2)

/-- The start announcement of `container_ready`. -/
def startedLine (c : ContainerInfo) : String :=
  "Container " ++ c.cname ++ " with id " ++ c.shortId ++ " successfully started"

/-- Operations the waiting/printing phase may emit: inspections of the
started container, the fixed 0.1 s sleep, and console lines.  No image
pull, no network operation, no container run, and no other sleep
duration. -/
def pollish (cid : String) (o : Op) : Prop :=
  o = Op.containersGet cid ∨ o = Op.sleep 100 ∨ ∃ s, o = Op.print s

/-- One command-line parameter: its name and whether it is a positional
argument (`typer.Argument`) rather than an option flag. -/
structure CliParam where
  pname : String
  isArgument : Bool
deriving DecidableEq, Repr

/-- A subcommand of the CLI: its name and its parameters in source
order. -/
structure CliCommand where
  cmdName : String
  params : List CliParam
deriving DecidableEq, Repr

/-- Shorthand for a positional argument parameter. -/
def argP (s : String) : CliParam := { pname := s, isArgument := true }

/-- Shorthand for an option parameter. -/
def optP (s : String) : CliParam := { pname := s, isArgument := false }

/-- The command-line surface registered on the `Typer` app, one entry per
`@cli.command` function, parameters in source order. -/
def cliCommands : List CliCommand :=
  [{ cmdName := "pg",
     params := [argP "name", optP "db_name", optP "network", optP "port", optP "tag"] },
   { cmdName := "timescale",
     params := [argP "name", optP "db_name", optP "port", optP "network", optP "tag"] },
   { cmdName := "rmq",
     params := [argP "name", optP "port", optP "ui_port", optP "username",
                optP "password", optP "network", optP "tag"] },
   { cmdName := "redis",
     params := [argP "name", optP "port", optP "network", optP "tag"] },
   { cmdName := "scylla",
     params := [argP "name", optP "port", optP "network", optP "tag"] },
   { cmdName := "nats",
     params := [argP "name", optP "port", optP "network", optP "tag"] },
   { cmdName := "zk",
     params := [argP "name", optP "network", optP "port", optP "tag"] },
   { cmdName := "kafka",
     params := [argP "name", optP "network", optP "port", optP "tag"] }]

/-- Whether a subcommand has a parameter of the given name. -/
def hasParam (c : CliCommand) (s : String) : Bool :=
  c.params.any fun p => p.pname = s

/-- The parameter names that carry credentials. -/
def credentialNames : List String := ["db_name", "username", "password"]

/-- Whether a subcommand has any credential parameter. -/
def hasCredentialParam (c : CliCommand) : Bool :=
  c.params.any fun p => credentialNames.contains p.pname

/-- A concrete demo engine for witnesses: the pull succeeds with one repo
tag, no network exists yet, the run succeeds, and the container reports
"starting" on the first inspection and "healthy" afterwards, attached to
one network. -/
def demoAttrs (k : Nat) : ContainerAttrs :=
  if k = 0 then { healthStatus := "starting", networks := [] }
  else { healthStatus := "healthy", networks := [("cont_net", "172.18.0.2")] }

/-- Demo engine state used to instantiate witnesses. -/
def demoEngine : EngineState :=
  { registry := fun _ _ => Except.ok { repoTags := ["postgres:16.3-bookworm"] }
    networks := []
    runResp := fun _ => Except.ok { cname := "demo", shortId := "ab12", id := "c0" }
    inspectResp := fun _ k => Except.ok (demoAttrs k) }

/-- Demo engine whose containers never become healthy. -/
def stuckEngine : EngineState :=
  { registry := fun _ _ => Except.ok { repoTags := ["postgres:16.3-bookworm"] }
    networks := []
    runResp := fun _ => Except.ok { cname := "demo", shortId := "ab12", id := "c0" }
    inspectResp := fun _ _ =>
      Except.ok { healthStatus := "starting", networks := [] } }

/-- Demo engine whose registry fails every pull. -/
def pullFailEngine : EngineState :=
  { registry := fun _ _ => Except.error (Err.apiError 500)
    networks := []
    runResp := fun _ => Except.ok { cname := "demo", shortId := "ab12", id := "c0" }
    inspectResp := fun _ k => Except.ok (demoAttrs k) }

/-- Demo engine whose pulled image has an empty `RepoTags` list. -/
def noTagEngine : EngineState :=
  { registry := fun _ _ => Except.ok { repoTags := [] }
    networks := []
    runResp := fun _ => Except.ok { cname := "demo", shortId := "ab12", id := "c0" }
    inspectResp := fun _ k => Except.ok (demoAttrs k) }

/-- The engine network list after `declare_network`: unchanged when the
network exists, extended otherwise. -/
def netUpd (network : String) (nets : List String) : List String :=
  if network ∈ nets then nets else network :: nets

/-- Bind steps through a succeeding computation. -/
theorem mbind_ok {α β : Type} {m : M α} {f : α → M β} {w w2 : World} {a : α}
    (h : m w = (Except.ok a, w2)) : mbind m f w = f a w2 := by
  simp [mbind, h]

/-- Bind propagates an exception unchanged. -/
theorem mbind_err {α β : Type} {m : M α} {f : α → M β} {w w2 : World} {e : Err}
    (h : m w = (Except.error e, w2)) : mbind m f w = (Except.error e, w2) := by
  simp [mbind, h]

/-- Equation for a successful image pull. -/
theorem images_pull_ok {repo tag : String} {w : World} {img : Image}
    (h : w.eng.registry repo tag = Except.ok img) :
    images_pull repo tag w =
      (Except.ok img, { w with trace := w.trace ++ [Op.imagesPull repo tag] }) := by
  simp [images_pull, h]

/-- Equation for a failing image pull. -/
theorem images_pull_err {repo tag : String} {w : World} {e : Err}
    (h : w.eng.registry repo tag = Except.error e) :
    images_pull repo tag w =
      (Except.error e, { w with trace := w.trace ++ [Op.imagesPull repo tag] }) := by
  simp [images_pull, h]

/-- Equation for a network lookup that finds the network. -/
theorem networks_get_mem {network : String} {w : World}
    (h : network ∈ w.eng.networks) :
    networks_get network w =
      (Except.ok (), { w with trace := w.trace ++ [Op.networksGet network] }) := by
  simp [networks_get, h]

/-- Equation for a network lookup that raises `NotFound`. -/
theorem networks_get_not_mem {network : String} {w : World}
    (h : network ∉ w.eng.networks) :
    networks_get network w =
      (Except.error Err.notFound,
       { w with trace := w.trace ++ [Op.networksGet network] }) := by
  simp [networks_get, h]

/-- Equation for a successful container run. -/
theorem containers_run_ok {cfg : RunConfig} {w : World} {c : ContainerInfo}
    (h : w.eng.runResp cfg = Except.ok c) :
    containers_run cfg w =
      (Except.ok c, { w with trace := w.trace ++ [Op.containersRun cfg] }) := by
  simp [containers_run, h]

/-- Equation for a failing container run. -/
theorem containers_run_err {cfg : RunConfig} {w : World} {e : Err}
    (h : w.eng.runResp cfg = Except.error e) :
    containers_run cfg w =
      (Except.error e, { w with trace := w.trace ++ [Op.containersRun cfg] }) := by
  simp [containers_run, h]

/-- Equation for a successful container inspection. -/
theorem containers_get_ok {cid : String} {w : World} {a : ContainerAttrs}
    (h : w.eng.inspectResp cid w.polls = Except.ok a) :
    containers_get cid w =
      (Except.ok a,
       { w with polls := w.polls + 1,
                trace := w.trace ++ [Op.containersGet cid] }) := by
  simp [containers_get, h]

/-- Equation for a failing container inspection. -/
theorem containers_get_err {cid : String} {w : World} {e : Err}
    (h : w.eng.inspectResp cid w.polls = Except.error e) :
    containers_get cid w =
      (Except.error e,
       { w with polls := w.polls + 1,
                trace := w.trace ++ [Op.containersGet cid] }) := by
  simp [containers_get, h]

/-- `runCalls` distributes over trace concatenation. -/
theorem runCalls_append (a b : List Op) :
    runCalls (a ++ b) = runCalls a ++ runCalls b := by
  simp [runCalls, List.filterMap_append]

/-- `pullCalls` distributes over trace concatenation. -/
theorem pullCalls_append (a b : List Op) :
    pullCalls (a ++ b) = pullCalls a ++ pullCalls b := by
  simp [pullCalls, List.filterMap_append]

/-- A trace of polling-phase operations records no container run. -/
theorem runCalls_of_pollish {cid : String} :
    ∀ (ext : List Op), (∀ o ∈ ext, pollish cid o) → runCalls ext = [] := by
  intro ext
  induction ext with
  | nil => intro _; rfl
  | cons o rest ih =>
    intro h
    have ho := h o (List.mem_cons_self o rest)
    have hrest := ih fun x hx => h x (List.mem_cons_of_mem o hx)
    rcases ho with h1 | h1 | ⟨s, h1⟩ <;>
      subst h1 <;> simpa [runCalls] using hrest

/-- A trace of polling-phase operations records no image pull. -/
theorem pullCalls_of_pollish {cid : String} :
    ∀ (ext : List Op), (∀ o ∈ ext, pollish cid o) → pullCalls ext = [] := by
  intro ext
  induction ext with
  | nil => intro _; rfl
  | cons o rest ih =>
    intro h
    have ho := h o (List.mem_cons_self o rest)
    have hrest := ih fun x hx => h x (List.mem_cons_of_mem o hx)
    rcases ho with h1 | h1 | ⟨s, h1⟩ <;>
      subst h1 <;> simpa [pullCalls] using hrest

/-- When the first healthy poll is the `j`-th one and the fuel bound
exceeds `j`, the wait loop polls exactly `j + 1` times, sleeping 0.1 s
after each poll, prints the healthy message, and returns. -/
theorem wait_spec :
    ∀ (j : Nat) (st : Nat → ContainerAttrs) (fuel : Nat) (w : World) (cid : String),
      (∀ k, k ≤ j → w.eng.inspectResp cid (w.polls + k) = Except.ok (st k)) →
      (∀ k, k < j → (st k).healthStatus ≠ "healthy") →
      (st j).healthStatus = "healthy" →
      j < fuel →
      wait_healtcheck cid fuel w =
        (Except.ok true,
         { w with polls := w.polls + (j + 1),
                  trace := w.trace ++ pollTrace cid (j + 1)
                    ++ [Op.print "Container is healthy!"] }) := by
  intro j
  induction j with
  | zero =>
    intro st fuel w cid Hin Hb Hj Hf
    cases fuel with
    | zero => exact absurd Hf (Nat.not_lt_zero _)
    | succ fuel =>
      have h0 : w.eng.inspectResp cid w.polls = Except.ok (st 0) := by
        simpa using Hin 0 (Nat.le_refl 0)
      simp [wait_healtcheck, mbind, containers_get, msleep, mprint, mpure,
        h0, Hj, pollTrace]
  | succ j ih =>
    intro st fuel w cid Hin Hb Hj Hf
    cases fuel with
    | zero => exact absurd Hf (Nat.not_lt_zero _)
    | succ fuel =>
      have h0 : w.eng.inspectResp cid w.polls = Except.ok (st 0) := by
        simpa using Hin 0 (Nat.zero_le _)
      have hb0 : (st 0).healthStatus ≠ "healthy" := Hb 0 (Nat.succ_pos j)
      have step : wait_healtcheck cid (fuel + 1) w =
          wait_healtcheck cid fuel
            { w with polls := w.polls + 1,
                     trace := w.trace ++ [Op.containersGet cid, Op.sleep 100] } := by
        simp [wait_healtcheck, mbind, containers_get, msleep, h0, hb0]
      have ih' := ih (fun k => st (k + 1)) fuel
        { w with polls := w.polls + 1,
                 trace := w.trace ++ [Op.containersGet cid, Op.sleep 100] }
        cid
        (by
          intro k hk
          have hidx : w.polls + 1 + k = w.polls + (k + 1) := by omega
          simpa [hidx] using Hin (k + 1) (by omega))
        (by intro k hk; exact Hb (k + 1) (by omega))
        Hj
        (by omega)
      rw [step, ih']
      simp [pollTrace, List.append_assoc]
      omega

/-- When the container never reports healthy, the wait loop is still
running at every fuel bound: it has polled exactly `fuel` times and
returned nothing. -/
theorem wait_stuck :
    ∀ (fuel : Nat) (st : Nat → ContainerAttrs) (w : World) (cid : String),
      (∀ k, w.eng.inspectResp cid (w.polls + k) = Except.ok (st k)) →
      (∀ k, (st k).healthStatus ≠ "healthy") →
      wait_healtcheck cid fuel w =
        (Except.ok false,
         { w with polls := w.polls + fuel,
                  trace := w.trace ++ pollTrace cid fuel }) := by
  intro fuel
  induction fuel with
  | zero => intro st w cid _ _; simp [wait_healtcheck, mpure, pollTrace]
  | succ fuel ih =>
    intro st w cid Hin Hnever
    have h0 : w.eng.inspectResp cid w.polls = Except.ok (st 0) := by
      simpa using Hin 0
    have step : wait_healtcheck cid (fuel + 1) w =
        wait_healtcheck cid fuel
          { w with polls := w.polls + 1,
                   trace := w.trace ++ [Op.containersGet cid, Op.sleep 100] } := by
      simp [wait_healtcheck, mbind, containers_get, msleep, h0, Hnever 0]
    have ih' := ih (fun k => st (k + 1))
      { w with polls := w.polls + 1,
               trace := w.trace ++ [Op.containersGet cid, Op.sleep 100] }
      cid
      (by
        intro k
        have hidx : w.polls + 1 + k = w.polls + (k + 1) := by omega
        simpa [hidx] using Hin (k + 1))
      (fun k => Hnever (k + 1))
    rw [step, ih']
    simp [pollTrace, List.append_assoc]
    omega

/-- When the first `j` polls are unhealthy and the `j`-th inspection
raises, the wait loop propagates that error after `j` full iterations and
one further inspection. -/
theorem wait_err :
    ∀ (j : Nat) (st : Nat → ContainerAttrs) (fuel : Nat) (w : World)
      (cid : String) (e : Err),
      (∀ k, k < j → w.eng.inspectResp cid (w.polls + k) = Except.ok (st k)) →
      (∀ k, k < j → (st k).healthStatus ≠ "healthy") →
      w.eng.inspectResp cid (w.polls + j) = Except.error e →
      j < fuel →
      wait_healtcheck cid fuel w =
        (Except.error e,
         { w with polls := w.polls + j + 1,
                  trace := w.trace ++ pollTrace cid j ++ [Op.containersGet cid] }) := by
  intro j
  induction j with
  | zero =>
    intro st fuel w cid e Hin Hb Herr Hf
    cases fuel with
    | zero => exact absurd Hf (Nat.not_lt_zero _)
    | succ fuel =>
      have h0 : w.eng.inspectResp cid w.polls = Except.error e := by
        simpa using Herr
      simp [wait_healtcheck, mbind, containers_get, h0, pollTrace]
  | succ j ih =>
    intro st fuel w cid e Hin Hb Herr Hf
    cases fuel with
    | zero => exact absurd Hf (Nat.not_lt_zero _)
    | succ fuel =>
      have h0 : w.eng.inspectResp cid w.polls = Except.ok (st 0) := by
        simpa using Hin 0 (Nat.succ_pos j)
      have hb0 : (st 0).healthStatus ≠ "healthy" := Hb 0 (Nat.succ_pos j)
      have step : wait_healtcheck cid (fuel + 1) w =
          wait_healtcheck cid fuel
            { w with polls := w.polls + 1,
                     trace := w.trace ++ [Op.containersGet cid, Op.sleep 100] } := by
        simp [wait_healtcheck, mbind, containers_get, msleep, h0, hb0]
      have ih' := ih (fun k => st (k + 1)) fuel
        { w with polls := w.polls + 1,
                 trace := w.trace ++ [Op.containersGet cid, Op.sleep 100] }
        cid e
        (by
          intro k hk
          have hidx : w.polls + 1 + k = w.polls + (k + 1) := by omega
          simpa [hidx] using Hin (k + 1) (by omega))
        (by intro k hk; exact Hb (k + 1) (by omega))
        (by
          have hidx : w.polls + 1 + j = w.polls + (j + 1) := by omega
          simpa [hidx] using Herr)
        (by omega)
      rw [step, ih']
      simp [pollTrace, List.append_assoc]
      omega

/-- Whatever the engine answers, the wait loop only ever appends
inspections of the given container, fixed 0.1 s sleeps, and console
lines to the trace. -/
theorem wait_ext (cid : String) :
    ∀ (fuel : Nat) (w : World),
      ∃ ext, ((wait_healtcheck cid fuel) w).2.trace = w.trace ++ ext ∧
        ∀ o ∈ ext, pollish cid o := by
  intro fuel
  induction fuel with
  | zero => intro w; exact ⟨[], by simp [wait_healtcheck, mpure], by simp⟩
  | succ fuel ih =>
    intro w
    cases h : w.eng.inspectResp cid w.polls with
    | error e =>
      refine ⟨[Op.containersGet cid], ?_, ?_⟩
      · simp [wait_healtcheck, mbind, containers_get, h]
      · intro o ho
        simp at ho
        subst ho
        exact Or.inl rfl
    | ok a =>
      by_cases hh : a.healthStatus = "healthy"
      · refine ⟨[Op.containersGet cid, Op.sleep 100,
          Op.print "Container is healthy!"], ?_, ?_⟩
        · simp [wait_healtcheck, mbind, containers_get, msleep, mprint, mpure, h, hh]
        · intro o ho
          simp at ho
          rcases ho with rfl | rfl | rfl
          · exact Or.inl rfl
          · exact Or.inr (Or.inl rfl)
          · exact Or.inr (Or.inr ⟨_, rfl⟩)
      · obtain ⟨ext, hext, hp⟩ := ih
          { w with polls := w.polls + 1,
                   trace := w.trace ++ [Op.containersGet cid, Op.sleep 100] }
        refine ⟨[Op.containersGet cid, Op.sleep 100] ++ ext, ?_, ?_⟩
        · have step : wait_healtcheck cid (fuel + 1) w =
              wait_healtcheck cid fuel
                { w with polls := w.polls + 1,
                         trace := w.trace ++ [Op.containersGet cid, Op.sleep 100] } := by
            simp [wait_healtcheck, mbind, containers_get, msleep, h, hh]
          rw [step]
          simpa [List.append_assoc] using hext
        · intro o ho
          rcases List.mem_append.mp ho with h1 | h2
          · simp at h1
            rcases h1 with rfl | rfl
            · exact Or.inl rfl
            · exact Or.inr (Or.inl rfl)
          · exact hp o h2

/-- `pull_img` returns the first repo tag of the pulled image. -/
theorem pull_img_ok {repo tag t : String} {ts : List String} {w : World}
    {img : Image} (h1 : w.eng.registry repo tag = Except.ok img)
    (h2 : img.repoTags = t :: ts) :
    pull_img repo tag w =
      (Except.ok t, { w with trace := w.trace ++ [Op.imagesPull repo tag] }) := by
  simp [pull_img, mbind, images_pull, mpure, h1, h2]

/-- `pull_img` raises the Python `IndexError` when `RepoTags` is empty. -/
theorem pull_img_empty {repo tag : String} {w : World} {img : Image}
    (h1 : w.eng.registry repo tag = Except.ok img)
    (h2 : img.repoTags = []) :
    pull_img repo tag w =
      (Except.error Err.indexError,
       { w with trace := w.trace ++ [Op.imagesPull repo tag] }) := by
  simp [pull_img, mbind, images_pull, mfail, h1, h2]

/-- `pull_img` propagates a registry error. -/
theorem pull_img_err {repo tag : String} {w : World} {e : Err}
    (h : w.eng.registry repo tag = Except.error e) :
    pull_img repo tag w =
      (Except.error e, { w with trace := w.trace ++ [Op.imagesPull repo tag] }) := by
  simp [pull_img, mbind, images_pull, h]

/-- When the network exists, `declare_network` only looks it up: no
create call, engine state untouched. -/
theorem declare_network_mem {network : String} {w : World}
    (h : network ∈ w.eng.networks) :
    declare_network network w =
      (Except.ok (), { w with trace := w.trace ++ [Op.networksGet network] }) := by
  simp [declare_network, networks_get, h]

/-- When the network does not exist, the lookup raises `NotFound` and
`declare_network` creates the network with `attachable=True`. -/
theorem declare_network_not_mem {network : String} {w : World}
    (h : network ∉ w.eng.networks) :
    declare_network network w =
      (Except.ok (),
       { w with
         eng := { w.eng with networks := network :: w.eng.networks }
         trace := w.trace
           ++ [Op.networksGet network, Op.networksCreate network true] }) := by
  simp [declare_network, networks_get, networks_create, h]

/-- `declare_network` in terms of `netExt`/`netUpd`, whichever case. -/
theorem declare_network_eq (network : String) (w : World) :
    declare_network network w =
      (Except.ok (),
       { w with
         eng := { w.eng with networks := netUpd network w.eng.networks }
         trace := w.trace ++ netExt network w.eng.networks }) := by
  by_cases h : network ∈ w.eng.networks
  · rw [declare_network_mem h]
    simp [netUpd, netExt, h]
  · rw [declare_network_not_mem h]
    simp [netUpd, netExt, h]

/-- The printing loop of `print_network_settings` emits one line per
attached network. -/
theorem print_networks_eq :
    ∀ (l : List (String × String)) (w : World),
      print_networks l w =
        (Except.ok (), { w with trace := w.trace ++ ipLines l }) := by
  intro l
  induction l with
  | nil => intro w; simp [print_networks, mpure, ipLines]
  | cons p rest ih =>
    intro w
    simp only [print_networks, ipLines, List.map_cons]
    rw [mbind_ok (show mprint ("\t" ++ p.1 ++ ": " ++ p.2) w = _ from rfl)]
    rw [ih]
    simp [ipLines, List.append_assoc]

/-- `print_network_settings` prints the header, inspects the container
once, and prints one `name: IP` line per attached network. -/
theorem print_network_settings_ok {cid : String} {w : World}
    {a : ContainerAttrs}
    (h : w.eng.inspectResp cid w.polls = Except.ok a) :
    print_network_settings cid w =
      (Except.ok (),
       { w with polls := w.polls + 1,
                trace := w.trace
                  ++ [Op.print "Container IPs:", Op.containersGet cid]
                  ++ ipLines a.networks }) := by
  simp only [print_network_settings]
  rw [mbind_ok (show mprint "Container IPs:" w = _ from rfl)]
  rw [mbind_ok (containers_get_ok (by simpa using h))]
  rw [print_networks_eq]
  simp [List.append_assoc]

/-- `print_network_settings` propagates an inspection error after the
header line. -/
theorem print_network_settings_err {cid : String} {w : World} {e : Err}
    (h : w.eng.inspectResp cid w.polls = Except.error e) :
    print_network_settings cid w =
      (Except.error e,
       { w with polls := w.polls + 1,
                trace := w.trace
                  ++ [Op.print "Container IPs:", Op.containersGet cid] }) := by
  simp only [print_network_settings]
  rw [mbind_ok (show mprint "Container IPs:" w = _ from rfl)]
  rw [mbind_err (containers_get_err (by simpa using h))]
  simp

/-- Whatever the engine answers, `print_network_settings` appends only
console lines and inspections of the given container. -/
theorem print_network_settings_ext (cid : String) (w : World) :
    ∃ ext, ((print_network_settings cid) w).2.trace = w.trace ++ ext ∧
      ∀ o ∈ ext, pollish cid o := by
  cases h : w.eng.inspectResp cid w.polls with
  | ok a =>
    refine ⟨[Op.print "Container IPs:", Op.containersGet cid]
      ++ ipLines a.networks, ?_, ?_⟩
    · rw [print_network_settings_ok h]
      simp [List.append_assoc]
    · intro o ho
      rcases List.mem_append.mp ho with h1 | h2
      · simp at h1
        rcases h1 with rfl | rfl
        · exact Or.inr (Or.inr ⟨_, rfl⟩)
        · exact Or.inl rfl
      · rcases List.mem_map.mp h2 with ⟨p, _, rfl⟩
        exact Or.inr (Or.inr ⟨_, rfl⟩)
  | error e =>
    refine ⟨[Op.print "Container IPs:", Op.containersGet cid], ?_, ?_⟩
    · rw [print_network_settings_err h]
    · intro o ho
      simp at ho
      rcases ho with rfl | rfl
      · exact Or.inr (Or.inr ⟨_, rfl⟩)
      · exact Or.inl rfl

/-- Equation for a printed line. -/
theorem mprint_eq (s : String) (w : World) :
    mprint s w = (Except.ok (), { w with trace := w.trace ++ [Op.print s] }) := rfl

/-- Equation for a sleep. -/
theorem msleep_eq (ms : Nat) (w : World) :
    msleep ms w = (Except.ok (), { w with trace := w.trace ++ [Op.sleep ms] }) := rfl

/-- Successful `container_ready`: announce the start, poll `j + 1` times
until healthy, print the healthy message, then print the network
settings (one further inspection). -/
theorem container_ready_spec {cont : ContainerInfo} {fuel : Nat} {w : World}
    {q : Nat → ContainerAttrs} {j : Nat}
    (Hin : ∀ k, k ≤ j + 1 →
      w.eng.inspectResp cont.id (w.polls + k) = Except.ok (q k))
    (Hb : ∀ k, k < j → (q k).healthStatus ≠ "healthy")
    (Hj : (q j).healthStatus = "healthy")
    (Hf : j < fuel) :
    container_ready cont fuel w =
      (Except.ok true,
       { w with
         polls := w.polls + (j + 2),
         trace := w.trace ++ [Op.print (startedLine cont)]
           ++ pollTrace cont.id (j + 1)
           ++ [Op.print "Container is healthy!", Op.print "Container IPs:",
               Op.containersGet cont.id]
           ++ ipLines (q (j + 1)).networks }) := by
  simp only [container_ready]
  rw [mbind_ok (mprint_eq _ w)]
  rw [show ("Container " ++ cont.cname ++ " with id " ++ cont.shortId
    ++ " successfully started") = startedLine cont from rfl]
  rw [mbind_ok (wait_spec j q fuel
    { w with trace := w.trace ++ [Op.print (startedLine cont)] } cont.id
    (by intro k hk; simpa using Hin k (by omega))
    Hb Hj Hf)]
  simp only [if_true]
  rw [mbind_ok (print_network_settings_ok (a := q (j + 1)) (by
    simpa using Hin (j + 1) (by omega)))]
  simp [mpure, List.append_assoc, startedLine]
  omega

/-- `container_ready` when an inspection raises during the wait loop:
the error propagates and nothing further is printed. -/
theorem container_ready_poll_err {cont : ContainerInfo} {fuel : Nat}
    {w : World} {q : Nat → ContainerAttrs} {j : Nat} {e : Err}
    (Hin : ∀ k, k < j →
      w.eng.inspectResp cont.id (w.polls + k) = Except.ok (q k))
    (Hb : ∀ k, k < j → (q k).healthStatus ≠ "healthy")
    (Herr : w.eng.inspectResp cont.id (w.polls + j) = Except.error e)
    (Hf : j < fuel) :
    container_ready cont fuel w =
      (Except.error e,
       { w with
         polls := w.polls + j + 1,
         trace := w.trace ++ [Op.print (startedLine cont)]
           ++ pollTrace cont.id j ++ [Op.containersGet cont.id] }) := by
  simp only [container_ready]
  rw [mbind_ok (mprint_eq _ w)]
  rw [show ("Container " ++ cont.cname ++ " with id " ++ cont.shortId
    ++ " successfully started") = startedLine cont from rfl]
  rw [mbind_err (wait_err j q fuel
    { w with trace := w.trace ++ [Op.print (startedLine cont)] } cont.id e
    (by intro k hk; simpa using Hin k hk)
    Hb (by simpa using Herr) Hf)]

/-- Whatever the engine answers, `container_ready` appends only console
lines, inspections of its container, and fixed sleeps: in particular no
pull, no network operation and no container run. -/
theorem container_ready_ext (cont : ContainerInfo) (fuel : Nat) (w : World) :
    ∃ ext, ((container_ready cont fuel) w).2.trace = w.trace ++ ext ∧
      ∀ o ∈ ext, pollish cont.id o := by
  simp only [container_ready]
  rw [mbind_ok (mprint_eq _ w)]
  obtain ⟨ext1, hext1, hp1⟩ := wait_ext cont.id fuel
    { w with trace := w.trace ++ [Op.print ("Container " ++ cont.cname
        ++ " with id " ++ cont.shortId ++ " successfully started")] }
  rcases hres : wait_healtcheck cont.id fuel
    { w with trace := w.trace ++ [Op.print ("Container " ++ cont.cname
        ++ " with id " ++ cont.shortId ++ " successfully started")] }
    with ⟨res, w2⟩
  rw [hres] at hext1
  simp only at hext1
  cases res with
  | error e =>
    refine ⟨[Op.print ("Container " ++ cont.cname ++ " with id "
      ++ cont.shortId ++ " successfully started")] ++ ext1, ?_, ?_⟩
    · rw [mbind_err hres]
      simpa [List.append_assoc] using hext1
    · intro o ho
      rcases List.mem_append.mp ho with h1 | h2
      · simp at h1
        subst h1
        exact Or.inr (Or.inr ⟨_, rfl⟩)
      · exact hp1 o h2
  | ok b =>
    rw [mbind_ok hres]
    cases b with
    | false =>
      refine ⟨[Op.print ("Container " ++ cont.cname ++ " with id "
        ++ cont.shortId ++ " successfully started")] ++ ext1, ?_, ?_⟩
      · simpa [mpure, List.append_assoc] using hext1
      · intro o ho
        rcases List.mem_append.mp ho with h1 | h2
        · simp at h1
          subst h1
          exact Or.inr (Or.inr ⟨_, rfl⟩)
        · exact hp1 o h2
    | true =>
      simp only [if_true]
      obtain ⟨ext2, hext2, hp2⟩ := print_network_settings_ext cont.id w2
      rcases hpns : print_network_settings cont.id w2 with ⟨res2, w3⟩
      rw [hpns] at hext2
      simp only at hext2
      refine ⟨[Op.print ("Container " ++ cont.cname ++ " with id "
        ++ cont.shortId ++ " successfully started")] ++ ext1 ++ ext2, ?_, ?_⟩
      · cases res2 with
        | error e =>
          rw [mbind_err hpns]
          simp only
          rw [hext2, hext1]
          simp [List.append_assoc]
        | ok u =>
          rw [mbind_ok hpns]
          simp only [mpure]
          rw [hext2, hext1]
          simp [List.append_assoc]
      · intro o ho
        rcases List.mem_append.mp ho with h12 | h3
        · rcases List.mem_append.mp h12 with h1 | h2
          · simp at h1
            subst h1
            exact Or.inr (Or.inr ⟨_, rfl⟩)
          · exact hp1 o h2
        · exact hp2 o h3

/-- The network-declaration phase records no container run. -/
theorem runCalls_netExt (n : String) (nets : List String) :
    runCalls (netExt n nets) = [] := by
  by_cases h : n ∈ nets <;> simp [netExt, runCalls, h]

/-- The network-declaration phase records no image pull. -/
theorem pullCalls_netExt (n : String) (nets : List String) :
    pullCalls (netExt n nets) = [] := by
  by_cases h : n ∈ nets <;> simp [netExt, pullCalls, h]

/-- `container_ready` when the wait loop succeeds but the final
inspection of `print_network_settings` raises: the error propagates
after the header line. -/
theorem container_ready_settings_err {cont : ContainerInfo} {fuel : Nat}
    {w : World} {q : Nat → ContainerAttrs} {j : Nat} {e : Err}
    (Hin : ∀ k, k ≤ j →
      w.eng.inspectResp cont.id (w.polls + k) = Except.ok (q k))
    (Hb : ∀ k, k < j → (q k).healthStatus ≠ "healthy")
    (Hj : (q j).healthStatus = "healthy")
    (Herr : w.eng.inspectResp cont.id (w.polls + (j + 1)) = Except.error e)
    (Hf : j < fuel) :
    container_ready cont fuel w =
      (Except.error e,
       { w with
         polls := w.polls + (j + 2),
         trace := w.trace ++ [Op.print (startedLine cont)]
           ++ pollTrace cont.id (j + 1)
           ++ [Op.print "Container is healthy!", Op.print "Container IPs:",
               Op.containersGet cont.id] }) := by
  simp only [container_ready]
  rw [mbind_ok (mprint_eq _ w)]
  rw [show ("Container " ++ cont.cname ++ " with id " ++ cont.shortId
    ++ " successfully started") = startedLine cont from rfl]
  rw [mbind_ok (wait_spec j q fuel
    { w with trace := w.trace ++ [Op.print (startedLine cont)] } cont.id
    (by intro k hk; simpa using Hin k hk)
    Hb Hj Hf)]
  simp only [if_true]
  rw [mbind_err (print_network_settings_err (by simpa using Herr))]
  simp [List.append_assoc]
  omega

/-- Successful full pipeline of a subcommand: pull, ensure network, run,
announce, poll until the first healthy status, print the healthy message
and the per-network IP lines. -/
theorem service_cmd_spec {repo tag network : String}
    {cfgOf : String → RunConfig} {fuel : Nat} {w : World} {img : Image}
    {t : String} {ts : List String} {ci : ContainerInfo}
    {st : Nat → ContainerAttrs} {j : Nat}
    (H1 : w.eng.registry repo tag = Except.ok img)
    (H2 : img.repoTags = t :: ts)
    (H3 : w.eng.runResp (cfgOf t) = Except.ok ci)
    (H4 : ∀ k, k ≤ j + 1 →
      w.eng.inspectResp ci.id (w.polls + k) = Except.ok (st k))
    (H5 : ∀ k, k < j → (st k).healthStatus ≠ "healthy")
    (H6 : (st j).healthStatus = "healthy")
    (H7 : j < fuel) :
    service_cmd repo tag network cfgOf fuel w =
      (Except.ok true,
       { w with
         eng := { w.eng with networks := netUpd network w.eng.networks },
         polls := w.polls + (j + 2),
         trace := w.trace ++ [Op.imagesPull repo tag]
           ++ netExt network w.eng.networks
           ++ [Op.containersRun (cfgOf t), Op.print (startedLine ci)]
           ++ pollTrace ci.id (j + 1)
           ++ [Op.print "Container is healthy!", Op.print "Container IPs:",
               Op.containersGet ci.id]
           ++ ipLines (st (j + 1)).networks }) := by
  simp only [service_cmd]
  rw [mbind_ok (pull_img_ok H1 H2)]
  rw [mbind_ok (declare_network_eq network _)]
  rw [mbind_ok (containers_run_ok (by simpa using H3))]
  rw [container_ready_spec (q := st) (j := j)
    (by intro k hk; simpa using H4 k hk) H5 H6 H7]
  simp [List.append_assoc]

/-- A registry error aborts the subcommand right after the pull call. -/
theorem service_cmd_pull_err {repo tag network : String}
    {cfgOf : String → RunConfig} {fuel : Nat} {w : World} {e : Err}
    (H : w.eng.registry repo tag = Except.error e) :
    service_cmd repo tag network cfgOf fuel w =
      (Except.error e,
       { w with trace := w.trace ++ [Op.imagesPull repo tag] }) := by
  simp only [service_cmd]
  rw [mbind_err (pull_img_err H)]

/-- An image with no repo tags aborts the subcommand with the indexing
error, right after the pull call. -/
theorem service_cmd_no_tag {repo tag network : String}
    {cfgOf : String → RunConfig} {fuel : Nat} {w : World} {img : Image}
    (H1 : w.eng.registry repo tag = Except.ok img)
    (H2 : img.repoTags = []) :
    service_cmd repo tag network cfgOf fuel w =
      (Except.error Err.indexError,
       { w with trace := w.trace ++ [Op.imagesPull repo tag] }) := by
  simp only [service_cmd]
  rw [mbind_err (pull_img_empty H1 H2)]

/-- A run error aborts the subcommand right after the create-container
call; the network phase has already taken effect. -/
theorem service_cmd_run_err {repo tag network : String}
    {cfgOf : String → RunConfig} {fuel : Nat} {w : World} {img : Image}
    {t : String} {ts : List String} {e : Err}
    (H1 : w.eng.registry repo tag = Except.ok img)
    (H2 : img.repoTags = t :: ts)
    (H3 : w.eng.runResp (cfgOf t) = Except.error e) :
    service_cmd repo tag network cfgOf fuel w =
      (Except.error e,
       { w with
         eng := { w.eng with networks := netUpd network w.eng.networks },
         trace := w.trace ++ [Op.imagesPull repo tag]
           ++ netExt network w.eng.networks
           ++ [Op.containersRun (cfgOf t)] }) := by
  simp only [service_cmd]
  rw [mbind_ok (pull_img_ok H1 H2)]
  rw [mbind_ok (declare_network_eq network _)]
  rw [mbind_err (containers_run_err (by simpa using H3))]

/-- An inspection error during the wait loop propagates out of the
subcommand, ending the trace at the failing inspection. -/
theorem service_cmd_poll_err {repo tag network : String}
    {cfgOf : String → RunConfig} {fuel : Nat} {w : World} {img : Image}
    {t : String} {ts : List String} {ci : ContainerInfo}
    {st : Nat → ContainerAttrs} {j : Nat} {e : Err}
    (H1 : w.eng.registry repo tag = Except.ok img)
    (H2 : img.repoTags = t :: ts)
    (H3 : w.eng.runResp (cfgOf t) = Except.ok ci)
    (H4 : ∀ k, k < j →
      w.eng.inspectResp ci.id (w.polls + k) = Except.ok (st k))
    (H5 : ∀ k, k < j → (st k).healthStatus ≠ "healthy")
    (H6 : w.eng.inspectResp ci.id (w.polls + j) = Except.error e)
    (H7 : j < fuel) :
    service_cmd repo tag network cfgOf fuel w =
      (Except.error e,
       { w with
         eng := { w.eng with networks := netUpd network w.eng.networks },
         polls := w.polls + j + 1,
         trace := w.trace ++ [Op.imagesPull repo tag]
           ++ netExt network w.eng.networks
           ++ [Op.containersRun (cfgOf t), Op.print (startedLine ci)]
           ++ pollTrace ci.id j ++ [Op.containersGet ci.id] }) := by
  simp only [service_cmd]
  rw [mbind_ok (pull_img_ok H1 H2)]
  rw [mbind_ok (declare_network_eq network _)]
  rw [mbind_ok (containers_run_ok (by simpa using H3))]
  rw [container_ready_poll_err (q := st) (j := j)
    (by intro k hk; simpa using H4 k hk)
    H5 (by simpa using H6) H7]
  simp [List.append_assoc]

/-- An inspection error while reading the network settings (after the
container reported healthy) propagates out of the subcommand. -/
theorem service_cmd_settings_err {repo tag network : String}
    {cfgOf : String → RunConfig} {fuel : Nat} {w : World} {img : Image}
    {t : String} {ts : List String} {ci : ContainerInfo}
    {st : Nat → ContainerAttrs} {j : Nat} {e : Err}
    (H1 : w.eng.registry repo tag = Except.ok img)
    (H2 : img.repoTags = t :: ts)
    (H3 : w.eng.runResp (cfgOf t) = Except.ok ci)
    (H4 : ∀ k, k ≤ j →
      w.eng.inspectResp ci.id (w.polls + k) = Except.ok (st k))
    (H5 : ∀ k, k < j → (st k).healthStatus ≠ "healthy")
    (H6 : (st j).healthStatus = "healthy")
    (H7 : w.eng.inspectResp ci.id (w.polls + (j + 1)) = Except.error e)
    (H8 : j < fuel) :
    service_cmd repo tag network cfgOf fuel w =
      (Except.error e,
       { w with
         eng := { w.eng with networks := netUpd network w.eng.networks },
         polls := w.polls + (j + 2),
         trace := w.trace ++ [Op.imagesPull repo tag]
           ++ netExt network w.eng.networks
           ++ [Op.containersRun (cfgOf t), Op.print (startedLine ci)]
           ++ pollTrace ci.id (j + 1)
           ++ [Op.print "Container is healthy!", Op.print "Container IPs:",
               Op.containersGet ci.id] }) := by
  simp only [service_cmd]
  rw [mbind_ok (pull_img_ok H1 H2)]
  rw [mbind_ok (declare_network_eq network _)]
  rw [mbind_ok (containers_run_ok (by simpa using H3))]
  rw [container_ready_settings_err (q := st) (j := j)
    (by intro k hk; simpa using H4 k hk)
    H5 H6 (by simpa using H7) H8]
  simp [List.append_assoc]

/-- The waiting/printing phase of a subcommand records no container
run. -/
theorem runCalls_container_ready (cont : ContainerInfo) (fuel : Nat)
    (w : World) :
    runCalls ((container_ready cont fuel w).2.trace) = runCalls w.trace := by
  obtain ⟨ext, hext, hp⟩ := container_ready_ext cont fuel w
  rw [hext, runCalls_append, runCalls_of_pollish ext hp, List.append_nil]

/-- The waiting/printing phase of a subcommand records no image pull. -/
theorem pullCalls_container_ready (cont : ContainerInfo) (fuel : Nat)
    (w : World) :
    pullCalls ((container_ready cont fuel w).2.trace) = pullCalls w.trace := by
  obtain ⟨ext, hext, hp⟩ := container_ready_ext cont fuel w
  rw [hext, pullCalls_append, pullCalls_of_pollish ext hp, List.append_nil]

/-- Whenever the pull succeeds and yields a tagged image, the subcommand
records exactly one create-container call: the one built from the pulled
tag, whatever the engine answers afterwards. -/
theorem service_cmd_runCalls {repo tag network : String}
    {cfgOf : String → RunConfig} {fuel : Nat} {w : World} {img : Image}
    {t : String} {ts : List String}
    (H1 : w.eng.registry repo tag = Except.ok img)
    (H2 : img.repoTags = t :: ts) :
    runCalls ((service_cmd repo tag network cfgOf fuel w).2.trace)
      = runCalls w.trace ++ [cfgOf t] := by
  simp only [service_cmd]
  rw [mbind_ok (pull_img_ok H1 H2)]
  rw [mbind_ok (declare_network_eq network _)]
  cases H3 : w.eng.runResp (cfgOf t) with
  | error e =>
    rw [mbind_err (containers_run_err (by simpa using H3))]
    simp only [runCalls_append, runCalls_netExt]
    simp [runCalls]
  | ok ci =>
    rw [mbind_ok (containers_run_ok (by simpa using H3))]
    rw [runCalls_container_ready]
    simp only [runCalls_append, runCalls_netExt]
    simp [runCalls]

/-- Whenever the pull succeeds and yields a tagged image, the subcommand
records exactly one image pull: the requested repository and tag. -/
theorem service_cmd_pullCalls {repo tag network : String}
    {cfgOf : String → RunConfig} {fuel : Nat} {w : World} {img : Image}
    {t : String} {ts : List String}
    (H1 : w.eng.registry repo tag = Except.ok img)
    (H2 : img.repoTags = t :: ts) :
    pullCalls ((service_cmd repo tag network cfgOf fuel w).2.trace)
      = pullCalls w.trace ++ [(repo, tag)] := by
  simp only [service_cmd]
  rw [mbind_ok (pull_img_ok H1 H2)]
  rw [mbind_ok (declare_network_eq network _)]
  cases H3 : w.eng.runResp (cfgOf t) with
  | error e =>
    rw [mbind_err (containers_run_err (by simpa using H3))]
    simp only [pullCalls_append, pullCalls_netExt]
    simp [pullCalls]
  | ok ci =>
    rw [mbind_ok (containers_run_ok (by simpa using H3))]
    rw [pullCalls_container_ready]
    simp only [pullCalls_append, pullCalls_netExt]
    simp [pullCalls]

/-- C3: for every network name, `declare_network` creates the network
(with `attachable = True`) if and only if looking the network up raises
the not-found error; when the lookup succeeds no create call is made and
the engine's network state is unchanged. -/
theorem C3_declare_network_create_iff_not_found (network : String) (w : World) :
    (network ∈ w.eng.networks →
      declare_network network w =
        (Except.ok (),
         { w with trace := w.trace ++ [Op.networksGet network] })) ∧
    (network ∉ w.eng.networks →
      declare_network network w =
        (Except.ok (),
         { w with
           eng := { w.eng with networks := network :: w.eng.networks }
           trace := w.trace
             ++ [Op.networksGet network, Op.networksCreate network true] })) ∧
    ((declare_network network w).2.trace
        = w.trace ++ netExt network w.eng.networks) ∧
    (Op.networksCreate network true ∈ netExt network w.eng.networks ↔
      (networks_get network w).1 = Except.error Err.notFound) := by
  refine ⟨fun h => declare_network_mem h, fun h => declare_network_not_mem h, ?_, ?_⟩
  · rw [declare_network_eq]
  · by_cases h : network ∈ w.eng.networks <;>
      simp [netExt, networks_get, h]

/-- C3 witness: on the demo engine (no networks) the lookup raises
not-found and `declare_network` creates the network. -/
theorem C3_witness :
    ("cont_net" ∉ (World.init demoEngine).eng.networks) ∧
    declare_network "cont_net" (World.init demoEngine) =
      (Except.ok (),
       { World.init demoEngine with
         eng := { (World.init demoEngine).eng with networks := ["cont_net"] }
         trace := [Op.networksGet "cont_net",
                   Op.networksCreate "cont_net" true] }) := by
  refine ⟨by simp [World.init, demoEngine], ?_⟩
  have h := (C3_declare_network_create_iff_not_found "cont_net"
    (World.init demoEngine)).2.1 (by simp [World.init, demoEngine])
  simpa [World.init, demoEngine] using h

/-- C9: `declare_network` is idempotent on the engine state: after one
call the network exists, so a second call only performs the lookup — it
issues no create request, succeeds, and leaves the engine state exactly
as the first call left it. -/
theorem C9_declare_network_idempotent (network : String) (w : World) :
    (declare_network network ((declare_network network w).2)).1
        = Except.ok () ∧
    (declare_network network ((declare_network network w).2)).2.eng
        = ((declare_network network w).2).eng ∧
    (declare_network network ((declare_network network w).2)).2.trace
        = ((declare_network network w).2).trace ++ [Op.networksGet network] := by
  by_cases h : network ∈ w.eng.networks
  · rw [declare_network_mem h]
    rw [declare_network_mem (show network ∈
      ({ w with trace := w.trace ++ [Op.networksGet network] } : World).eng.networks
      from h)]
    exact ⟨rfl, rfl, rfl⟩
  · rw [declare_network_not_mem h]
    rw [declare_network_mem (List.mem_cons_self network w.eng.networks)]
    exact ⟨rfl, rfl, rfl⟩

/-- C10: `pull_img` returns the first entry of the pulled image's
`RepoTags` list, and raises (the indexing error) instead of returning a
tag when that list is empty. -/
theorem C10_pull_img_first_repo_tag {repo tag : String} {w : World}
    {img : Image}
    (h : w.eng.registry repo tag = Except.ok img) :
    (∀ t ts, img.repoTags = t :: ts →
      pull_img repo tag w =
        (Except.ok t, { w with trace := w.trace ++ [Op.imagesPull repo tag] })) ∧
    (img.repoTags = [] →
      pull_img repo tag w =
        (Except.error Err.indexError,
         { w with trace := w.trace ++ [Op.imagesPull repo tag] })) := by
  exact ⟨fun t ts h2 => pull_img_ok h h2, fun h2 => pull_img_empty h h2⟩

/-- C10 witness: on the demo engine the pull returns the single repo tag;
on the engine whose image has no repo tags it raises the indexing
error. -/
theorem C10_witness :
    (demoEngine.registry "postgres" "16.3-bookworm"
        = Except.ok { repoTags := ["postgres:16.3-bookworm"] }) ∧
    pull_img "postgres" "16.3-bookworm" (World.init demoEngine) =
      (Except.ok "postgres:16.3-bookworm",
       { World.init demoEngine with
         trace := [Op.imagesPull "postgres" "16.3-bookworm"] }) ∧
    pull_img "postgres" "16.3-bookworm" (World.init noTagEngine) =
      (Except.error Err.indexError,
       { World.init noTagEngine with
         trace := [Op.imagesPull "postgres" "16.3-bookworm"] }) := by
  refine ⟨rfl, ?_, ?_⟩
  · have h := (@C10_pull_img_first_repo_tag "postgres" "16.3-bookworm"
      (World.init demoEngine) { repoTags := ["postgres:16.3-bookworm"] }
      rfl).1 "postgres:16.3-bookworm" [] rfl
    simpa [World.init] using h
  · have h := (@C10_pull_img_first_repo_tag "postgres" "16.3-bookworm"
      (World.init noTagEngine) { repoTags := [] }
      rfl).2 rfl
    simpa [World.init] using h

/-- C8: for `pg`, `timescale` and `scylla` the container is created with
the named persistent data volume (`name-pg-db` / `name-ts-db` /
`name-scylla-db`, mounted read-write at the service data directory)
exactly when the optional name argument is provided, and with no volumes
when it is omitted. -/
theorem C8_volumes_iff_named (n db_name network : String) (port : Nat)
    (img : String) :
    (pgConfig (some n) db_name network port img).volumes
        = some [{ volume := n ++ "-pg-db",
                  bind := "/var/lib/postgresql/data", mode := "rw" }] ∧
    (pgConfig none db_name network port img).volumes = none ∧
    (timescaleConfig (some n) db_name network port img).volumes
        = some [{ volume := n ++ "-ts-db",
                  bind := "/var/lib/postgresql/data", mode := "rw" }] ∧
    (timescaleConfig none db_name network port img).volumes = none ∧
    (scyllaConfig (some n) port network img).volumes
        = some [{ volume := n ++ "-scylla-db",
                  bind := "/var/lib/scylla", mode := "rw" }] ∧
    (scyllaConfig none port network img).volumes = none := by
  exact ⟨rfl, rfl, rfl, rfl, rfl, rfl⟩

/-- C5 counterexample: it is not the case that every subcommand carries a
credential parameter besides name, port, tag and network: `redis`,
`scylla`, `nats`, `zk` and `kafka` have none. -/
theorem C5_counterexample :
    ¬ ((cliCommands.all fun c =>
        hasParam c "name" && hasParam c "port" && hasParam c "tag"
          && hasParam c "network" && hasCredentialParam c) = true) := by
  decide

/-- C5 (amended): the CLI has exactly one subcommand per supported
service — pg, timescale, rmq, redis, scylla, nats, zk, kafka — and every
subcommand accepts parameters for name, port, tag and network; credential
parameters exist only on pg and timescale (`db_name`) and rmq
(`username`, `password`). -/
theorem C5_cli_surface :
    cliCommands.map CliCommand.cmdName
        = ["pg", "timescale", "rmq", "redis", "scylla", "nats", "zk", "kafka"] ∧
    (cliCommands.all fun c =>
      hasParam c "name" && hasParam c "port" && hasParam c "tag"
        && hasParam c "network") = true ∧
    (cliCommands.filter (fun c => hasCredentialParam c)).map CliCommand.cmdName
        = ["pg", "timescale", "rmq"] := by
  refine ⟨by decide, by decide, by decide⟩

/-- C1: whenever the pull succeeds and yields a tagged image, every
subcommand issues exactly one create-container call, whose image is the
tag string returned by the pull, whose port mapping binds the service's
fixed container port to the user-supplied host port, and whose
environment and healthcheck configuration are the fixed per-service
values parameterized only by the user-supplied arguments. -/
theorem C1_one_create_container_call :
    (∀ (name : Option String) (db_name network : String) (port : Nat)
       (tag : String) (fuel : Nat) (w : World) (img : Image) (t : String)
       (ts : List String),
       w.eng.registry "postgres" tag = Except.ok img →
       img.repoTags = t :: ts →
       runCalls ((pg name db_name network port tag fuel w).2.trace)
         = runCalls w.trace ++
           [{ name := name, image := t, remove := true, detach := true,
              network := network, hostname := pyOr name "pg", command := none,
              healthcheck :=
                { test := HCTest.str ("pg_isready -U " ++ db_name),
                  interval := 2000000000, timeout := 3000000000, retries := 40 },
              ports := [("5432", port)],
              volumes := name.map fun n =>
                [{ volume := n ++ "-pg-db",
                   bind := "/var/lib/postgresql/data", mode := "rw" }],
              environment :=
                [("POSTGRES_PASSWORD", db_name), ("POSTGRES_USER", db_name),
                 ("POSTGRES_DB", db_name)] }]) ∧
    (∀ (name : Option String) (db_name : String) (port : Nat)
       (network tag : String) (fuel : Nat) (w : World) (img : Image)
       (t : String) (ts : List String),
       w.eng.registry "timescale/timescaledb" tag = Except.ok img →
       img.repoTags = t :: ts →
       runCalls ((timescale name db_name port network tag fuel w).2.trace)
         = runCalls w.trace ++
           [{ name := name, image := t, remove := true, detach := true,
              network := network, hostname := pyOr name "timescale",
              command := none,
              healthcheck :=
                { test := HCTest.str ("pg_isready -U " ++ db_name),
                  interval := 2000000000, timeout := 3000000000, retries := 40 },
              ports := [("5432", port)],
              volumes := name.map fun n =>
                [{ volume := n ++ "-ts-db",
                   bind := "/var/lib/postgresql/data", mode := "rw" }],
              environment :=
                [("POSTGRES_PASSWORD", db_name), ("POSTGRES_USER", db_name),
                 ("POSTGRES_DB", db_name)] }]) ∧
    (∀ (name : Option String) (port ui_port : Nat)
       (username password network tag : String) (fuel : Nat) (w : World)
       (img : Image) (t : String) (ts : List String),
       w.eng.registry "rabbitmq" tag = Except.ok img →
       img.repoTags = t :: ts →
       runCalls ((rmq name port ui_port username password network tag fuel
           w).2.trace)
         = runCalls w.trace ++
           [{ name := name, image := t, remove := true, detach := true,
              network := network, hostname := pyOr name "rmq", command := none,
              healthcheck :=
                { test := HCTest.str "rabbitmq-diagnostics check_running -q",
                  interval := 3000000000, timeout := 3000000000, retries := 50 },
              ports := [("5672", port), ("15672", ui_port)],
              volumes := none,
              environment :=
                [("RABBITMQ_DEFAULT_USER", username),
                 ("RABBITMQ_DEFAULT_PASS", password),
                 ("RABBITMQ_DEFAULT_VHOST", "/")] }]) ∧
    (∀ (name : Option String) (port : Nat) (network tag : String)
       (fuel : Nat) (w : World) (img : Image) (t : String) (ts : List String),
       w.eng.registry "redis" tag = Except.ok img →
       img.repoTags = t :: ts →
       runCalls ((redis name port network tag fuel w).2.trace)
         = runCalls w.trace ++
           [{ name := name, image := t, remove := true, detach := true,
              network := network, hostname := pyOr name "redis",
              command := none,
              healthcheck :=
                { test := HCTest.str "redis-cli ping",
                  interval := 1000000000, timeout := 3000000000, retries := 50 },
              ports := [("6379", port)],
              volumes := none, environment := [] }]) ∧
    (∀ (name : Option String) (port : Nat) (network tag : String)
       (fuel : Nat) (w : World) (img : Image) (t : String) (ts : List String),
       w.eng.registry "scylladb/scylla" tag = Except.ok img →
       img.repoTags = t :: ts →
       runCalls ((scylla name port network tag fuel w).2.trace)
         = runCalls w.trace ++
           [{ name := name, image := t, remove := true, detach := true,
              network := network, hostname := pyOr name "scylla",
              command := some ["--skip-wait-for-gossip-to-settle", "0"],
              healthcheck :=
                { test := HCTest.str "cqlsh -e \x27select * from system.local\x27",
                  interval := 5000000000, timeout := 5000000000, retries := 60 },
              ports := [("9042", port)],
              volumes := name.map fun n =>
                [{ volume := n ++ "-scylla-db",
                   bind := "/var/lib/scylla", mode := "rw" }],
              environment := [] }]) ∧
    (∀ (name : Option String) (port : Nat) (network tag : String)
       (fuel : Nat) (w : World) (img : Image) (t : String) (ts : List String),
       w.eng.registry "nats" tag = Except.ok img →
       img.repoTags = t :: ts →
       runCalls ((nats name port network tag fuel w).2.trace)
         = runCalls w.trace ++
           [{ name := name, image := t, remove := true, detach := true,
              network := network, hostname := pyOr name "nats",
              command := some ["-m", "8222", "--jetstream"],
              healthcheck :=
                { test := HCTest.cmd
                    ["CMD", "sh", "-c",
                     "wget http://localhost:8222/healthz -q -O - | xargs | grep ok || exit 1"],
                  interval := 5000000000, timeout := 3000000000, retries := 20 },
              ports := [("4222", port)],
              volumes := none, environment := [] }]) ∧
    (∀ (name : Option String) (network : String) (port : Nat) (tag : String)
       (fuel : Nat) (w : World) (img : Image) (t : String) (ts : List String),
       w.eng.registry "bitnami/zookeeper" tag = Except.ok img →
       img.repoTags = t :: ts →
       runCalls ((zk name network port tag fuel w).2.trace)
         = runCalls w.trace ++
           [{ name := name, image := t, remove := true, detach := true,
              network := network, hostname := pyOr name "zk", command := none,
              healthcheck :=
                { test := HCTest.str "zkServer.sh status",
                  interval := 1000000000, timeout := 3000000000, retries := 30 },
              ports := [("2181", port)],
              volumes := none,
              environment :=
                [("ALLOW_ANONYMOUS_LOGIN", "yes"),
                 ("ZOO_LOG_LEVEL", "ERROR")] }]) ∧
    (∀ (name : Option String) (network : String) (port : Nat) (tag : String)
       (fuel : Nat) (w : World) (img : Image) (t : String) (ts : List String),
       w.eng.registry "bitnami/kafka" tag = Except.ok img →
       img.repoTags = t :: ts →
       runCalls ((kafka name network port tag fuel w).2.trace)
         = runCalls w.trace ++
           [{ name := name, image := t, remove := true, detach := true,
              network := network, hostname := pyOr name "kafka",
              command := none,
              healthcheck :=
                { test := HCTest.str
                    "kafka-topics.sh --list --bootstrap-server localhost:9092",
                  interval := 1000000000, timeout := 3000000000, retries := 30 },
              ports := [("9094", port)],
              volumes := none,
              environment :=
                [("KAFKA_CFG_NODE_ID", "0"),
                 ("KAFKA_CFG_PROCESS_ROLES", "controller,broker"),
                 ("KAFKA_CFG_LISTENERS",
                  "PLAINTEXT://:9092,CONTROLLER://:9093,EXTERNAL://:9094"),
                 ("KAFKA_CFG_ADVERTISED_LISTENERS",
                  "PLAINTEXT://kafka:9092,EXTERNAL://localhost:9094"),
                 ("KAFKA_CFG_LISTENER_SECURITY_PROTOCOL_MAP",
                  "CONTROLLER:PLAINTEXT,EXTERNAL:PLAINTEXT,PLAINTEXT:PLAINTEXT"),
                 ("KAFKA_CFG_CONTROLLER_QUORUM_VOTERS",
                  "0@" ++ pyOr name "kafka" ++ ":9093"),
                 ("KAFKA_CFG_CONTROLLER_LISTENER_NAMES", "CONTROLLER"),
                 ("KAFKA_CFG_AUTO_CREATE_TOPICS_ENABLE", "true"),
                 ("KAFKA_CFG_OFFSETS_TOPIC_REPLICATION_FACTOR", "1")] }]) := by
  refine ⟨?_, ?_, ?_, ?_, ?_, ?_, ?_, ?_⟩
  · intro name db_name network port tag fuel w img t ts H1 H2
    simp only [pg]
    rw [service_cmd_runCalls H1 H2]
    rfl
  · intro name db_name port network tag fuel w img t ts H1 H2
    simp only [timescale]
    rw [service_cmd_runCalls H1 H2]
    rfl
  · intro name port ui_port username password network tag fuel w img t ts H1 H2
    simp only [rmq]
    rw [service_cmd_runCalls H1 H2]
    rfl
  · intro name port network tag fuel w img t ts H1 H2
    simp only [redis]
    rw [service_cmd_runCalls H1 H2]
    rfl
  · intro name port network tag fuel w img t ts H1 H2
    simp only [scylla]
    rw [service_cmd_runCalls H1 H2]
    rfl
  · intro name port network tag fuel w img t ts H1 H2
    simp only [nats]
    rw [service_cmd_runCalls H1 H2]
    rfl
  · intro name network port tag fuel w img t ts H1 H2
    simp only [zk]
    rw [service_cmd_runCalls H1 H2]
    rfl
  · intro name network port tag fuel w img t ts H1 H2
    simp only [kafka]
    rw [service_cmd_runCalls H1 H2]
    rfl

/-- C4: every subcommand performs its engine operations in the strict
sequential order pull, ensure network, create/run, poll health, print
network settings: on a successful run the whole operation trace is
exactly that sequence, so no later step is issued before an earlier one
completes. -/
theorem C4_strict_sequential_order :
    (∀ (name : Option String) (db_name network : String) (port : Nat)
       (tag : String) (fuel : Nat) (w : World)
       (img : Image) (t : String) (ts : List String) (ci : ContainerInfo)
       (st : Nat → ContainerAttrs) (j : Nat),
       w.eng.registry "postgres" tag = Except.ok img →
       img.repoTags = t :: ts →
       w.eng.runResp (pgConfig name db_name network port t) = Except.ok ci →
       (∀ k, k ≤ j + 1 →
         w.eng.inspectResp ci.id (w.polls + k) = Except.ok (st k)) →
       (∀ k, k < j → (st k).healthStatus ≠ "healthy") →
       (st j).healthStatus = "healthy" →
       j < fuel →
       pg name db_name network port tag fuel w =
         (Except.ok true,
          { w with
            eng := { w.eng with networks := netUpd network w.eng.networks },
            polls := w.polls + (j + 2),
            trace := w.trace ++ [Op.imagesPull "postgres" tag]
              ++ netExt network w.eng.networks
              ++ [Op.containersRun (pgConfig name db_name network port t),
                  Op.print (startedLine ci)]
              ++ pollTrace ci.id (j + 1)
              ++ [Op.print "Container is healthy!", Op.print "Container IPs:",
                  Op.containersGet ci.id]
              ++ ipLines (st (j + 1)).networks })) ∧
    (∀ (name : Option String) (db_name : String) (port : Nat)
       (network tag : String) (fuel : Nat) (w : World)
       (img : Image) (t : String) (ts : List String) (ci : ContainerInfo)
       (st : Nat → ContainerAttrs) (j : Nat),
       w.eng.registry "timescale/timescaledb" tag = Except.ok img →
       img.repoTags = t :: ts →
       w.eng.runResp (timescaleConfig name db_name network port t) = Except.ok ci →
       (∀ k, k ≤ j + 1 →
         w.eng.inspectResp ci.id (w.polls + k) = Except.ok (st k)) →
       (∀ k, k < j → (st k).healthStatus ≠ "healthy") →
       (st j).healthStatus = "healthy" →
       j < fuel →
       timescale name db_name port network tag fuel w =
         (Except.ok true,
          { w with
            eng := { w.eng with networks := netUpd network w.eng.networks },
            polls := w.polls + (j + 2),
            trace := w.trace ++ [Op.imagesPull "timescale/timescaledb" tag]
              ++ netExt network w.eng.networks
              ++ [Op.containersRun (timescaleConfig name db_name network port t),
                  Op.print (startedLine ci)]
              ++ pollTrace ci.id (j + 1)
              ++ [Op.print "Container is healthy!", Op.print "Container IPs:",
                  Op.containersGet ci.id]
              ++ ipLines (st (j + 1)).networks })) ∧
    (∀ (name : Option String) (port ui_port : Nat)
       (username password network tag : String) (fuel : Nat) (w : World)
       (img : Image) (t : String) (ts : List String) (ci : ContainerInfo)
       (st : Nat → ContainerAttrs) (j : Nat),
       w.eng.registry "rabbitmq" tag = Except.ok img →
       img.repoTags = t :: ts →
       w.eng.runResp (rmqConfig name port ui_port username password network t) = Except.ok ci →
       (∀ k, k ≤ j + 1 →
         w.eng.inspectResp ci.id (w.polls + k) = Except.ok (st k)) →
       (∀ k, k < j → (st k).healthStatus ≠ "healthy") →
       (st j).healthStatus = "healthy" →
       j < fuel →
       rmq name port ui_port username password network tag fuel w =
         (Except.ok true,
          { w with
            eng := { w.eng with networks := netUpd network w.eng.networks },
            polls := w.polls + (j + 2),
            trace := w.trace ++ [Op.imagesPull "rabbitmq" tag]
              ++ netExt network w.eng.networks
              ++ [Op.containersRun (rmqConfig name port ui_port username password network t),
                  Op.print (startedLine ci)]
              ++ pollTrace ci.id (j + 1)
              ++ [Op.print "Container is healthy!", Op.print "Container IPs:",
                  Op.containersGet ci.id]
              ++ ipLines (st (j + 1)).networks })) ∧
    (∀ (name : Option String) (port : Nat) (network tag : String) (fuel : Nat) (w : World)
       (img : Image) (t : String) (ts : List String) (ci : ContainerInfo)
       (st : Nat → ContainerAttrs) (j : Nat),
       w.eng.registry "redis" tag = Except.ok img →
       img.repoTags = t :: ts →
       w.eng.runResp (redisConfig name port network t) = Except.ok ci →
       (∀ k, k ≤ j + 1 →
         w.eng.inspectResp ci.id (w.polls + k) = Except.ok (st k)) →
       (∀ k, k < j → (st k).healthStatus ≠ "healthy") →
       (st j).healthStatus = "healthy" →
       j < fuel →
       redis name port network tag fuel w =
         (Except.ok true,
          { w with
            eng := { w.eng with networks := netUpd network w.eng.networks },
            polls := w.polls + (j + 2),
            trace := w.trace ++ [Op.imagesPull "redis" tag]
              ++ netExt network w.eng.networks
              ++ [Op.containersRun (redisConfig name port network t),
                  Op.print (startedLine ci)]
              ++ pollTrace ci.id (j + 1)
              ++ [Op.print "Container is healthy!", Op.print "Container IPs:",
                  Op.containersGet ci.id]
              ++ ipLines (st (j + 1)).networks })) ∧
    (∀ (name : Option String) (port : Nat) (network tag : String) (fuel : Nat) (w : World)
       (img : Image) (t : String) (ts : List String) (ci : ContainerInfo)
       (st : Nat → ContainerAttrs) (j : Nat),
       w.eng.registry "scylladb/scylla" tag = Except.ok img →
       img.repoTags = t :: ts →
       w.eng.runResp (scyllaConfig name port network t) = Except.ok ci →
       (∀ k, k ≤ j + 1 →
         w.eng.inspectResp ci.id (w.polls + k) = Except.ok (st k)) →
       (∀ k, k < j → (st k).healthStatus ≠ "healthy") →
       (st j).healthStatus = "healthy" →
       j < fuel →
       scylla name port network tag fuel w =
         (Except.ok true,
          { w with
            eng := { w.eng with networks := netUpd network w.eng.networks },
            polls := w.polls + (j + 2),
            trace := w.trace ++ [Op.imagesPull "scylladb/scylla" tag]
              ++ netExt network w.eng.networks
              ++ [Op.containersRun (scyllaConfig name port network t),
                  Op.print (startedLine ci)]
              ++ pollTrace ci.id (j + 1)
              ++ [Op.print "Container is healthy!", Op.print "Container IPs:",
                  Op.containersGet ci.id]
              ++ ipLines (st (j + 1)).networks })) ∧
    (∀ (name : Option String) (port : Nat) (network tag : String) (fuel : Nat) (w : World)
       (img : Image) (t : String) (ts : List String) (ci : ContainerInfo)
       (st : Nat → ContainerAttrs) (j : Nat),
       w.eng.registry "nats" tag = Except.ok img →
       img.repoTags = t :: ts →
       w.eng.runResp (natsConfig name port network t) = Except.ok ci →
       (∀ k, k ≤ j + 1 →
         w.eng.inspectResp ci.id (w.polls + k) = Except.ok (st k)) →
       (∀ k, k < j → (st k).healthStatus ≠ "healthy") →
       (st j).healthStatus = "healthy" →
       j < fuel →
       nats name port network tag fuel w =
         (Except.ok true,
          { w with
            eng := { w.eng with networks := netUpd network w.eng.networks },
            polls := w.polls + (j + 2),
            trace := w.trace ++ [Op.imagesPull "nats" tag]
              ++ netExt network w.eng.networks
              ++ [Op.containersRun (natsConfig name port network t),
                  Op.print (startedLine ci)]
              ++ pollTrace ci.id (j + 1)
              ++ [Op.print "Container is healthy!", Op.print "Container IPs:",
                  Op.containersGet ci.id]
              ++ ipLines (st (j + 1)).networks })) ∧
    (∀ (name : Option String) (network : String) (port : Nat)
       (tag : String) (fuel : Nat) (w : World)
       (img : Image) (t : String) (ts : List String) (ci : ContainerInfo)
       (st : Nat → ContainerAttrs) (j : Nat),
       w.eng.registry "bitnami/zookeeper" tag = Except.ok img →
       img.repoTags = t :: ts →
       w.eng.runResp (zkConfig name network port t) = Except.ok ci →
       (∀ k, k ≤ j + 1 →
         w.eng.inspectResp ci.id (w.polls + k) = Except.ok (st k)) →
       (∀ k, k < j → (st k).healthStatus ≠ "healthy") →
       (st j).healthStatus = "healthy" →
       j < fuel →
       zk name network port tag fuel w =
         (Except.ok true,
          { w with
            eng := { w.eng with networks := netUpd network w.eng.networks },
            polls := w.polls + (j + 2),
            trace := w.trace ++ [Op.imagesPull "bitnami/zookeeper" tag]
              ++ netExt network w.eng.networks
              ++ [Op.containersRun (zkConfig name network port t),
                  Op.print (startedLine ci)]
              ++ pollTrace ci.id (j + 1)
              ++ [Op.print "Container is healthy!", Op.print "Container IPs:",
                  Op.containersGet ci.id]
              ++ ipLines (st (j + 1)).networks })) ∧
    (∀ (name : Option String) (network : String) (port : Nat)
       (tag : String) (fuel : Nat) (w : World)
       (img : Image) (t : String) (ts : List String) (ci : ContainerInfo)
       (st : Nat → ContainerAttrs) (j : Nat),
       w.eng.registry "bitnami/kafka" tag = Except.ok img →
       img.repoTags = t :: ts →
       w.eng.runResp (kafkaConfig name network port t) = Except.ok ci →
       (∀ k, k ≤ j + 1 →
         w.eng.inspectResp ci.id (w.polls + k) = Except.ok (st k)) →
       (∀ k, k < j → (st k).healthStatus ≠ "healthy") →
       (st j).healthStatus = "healthy" →
       j < fuel →
       kafka name network port tag fuel w =
         (Except.ok true,
          { w with
            eng := { w.eng with networks := netUpd network w.eng.networks },
            polls := w.polls + (j + 2),
            trace := w.trace ++ [Op.imagesPull "bitnami/kafka" tag]
              ++ netExt network w.eng.networks
              ++ [Op.containersRun (kafkaConfig name network port t),
                  Op.print (startedLine ci)]
              ++ pollTrace ci.id (j + 1)
              ++ [Op.print "Container is healthy!", Op.print "Container IPs:",
                  Op.containersGet ci.id]
              ++ ipLines (st (j + 1)).networks })) := by
  refine ⟨?_, ?_, ?_, ?_, ?_, ?_, ?_, ?_⟩
  · intro name db_name network port tag fuel w img t ts ci st j H1 H2 H3 H4 H5 H6 H7
    simp only [pg]
    exact service_cmd_spec H1 H2 H3 H4 H5 H6 H7
  · intro name db_name port network tag fuel w img t ts ci st j H1 H2 H3 H4 H5 H6 H7
    simp only [timescale]
    exact service_cmd_spec H1 H2 H3 H4 H5 H6 H7
  · intro name port ui_port username password network tag fuel w img t ts ci st j H1 H2 H3 H4 H5 H6 H7
    simp only [rmq]
    exact service_cmd_spec H1 H2 H3 H4 H5 H6 H7
  · intro name port network tag fuel w img t ts ci st j H1 H2 H3 H4 H5 H6 H7
    simp only [redis]
    exact service_cmd_spec H1 H2 H3 H4 H5 H6 H7
  · intro name port network tag fuel w img t ts ci st j H1 H2 H3 H4 H5 H6 H7
    simp only [scylla]
    exact service_cmd_spec H1 H2 H3 H4 H5 H6 H7
  · intro name port network tag fuel w img t ts ci st j H1 H2 H3 H4 H5 H6 H7
    simp only [nats]
    exact service_cmd_spec H1 H2 H3 H4 H5 H6 H7
  · intro name network port tag fuel w img t ts ci st j H1 H2 H3 H4 H5 H6 H7
    simp only [zk]
    exact service_cmd_spec H1 H2 H3 H4 H5 H6 H7
  · intro name network port tag fuel w img t ts ci st j H1 H2 H3 H4 H5 H6 H7
    simp only [kafka]
    exact service_cmd_spec H1 H2 H3 H4 H5 H6 H7

/-- C2: `wait_healtcheck` repeatedly fetches the container status at a
fixed 0.1 s interval and returns exactly at the first poll whose health
status is "healthy"; with no healthy status it keeps polling at every
bound (no timeout, no cancellation), and every sleep between polls is
the same 100 ms (no backoff). -/
theorem C2_wait_healtcheck_poll (cid : String) (w : World)
    (st : Nat → ContainerAttrs)
    (Hin : ∀ k, w.eng.inspectResp cid (w.polls + k) = Except.ok (st k)) :
    (∀ j fuel, (∀ k, k < j → (st k).healthStatus ≠ "healthy") →
      (st j).healthStatus = "healthy" → j < fuel →
      wait_healtcheck cid fuel w =
        (Except.ok true,
         { w with
           polls := w.polls + (j + 1),
           trace := w.trace ++ pollTrace cid (j + 1)
             ++ [Op.print "Container is healthy!"] })) ∧
    ((∀ k, (st k).healthStatus ≠ "healthy") →
      ∀ fuel, wait_healtcheck cid fuel w =
        (Except.ok false,
         { w with
           polls := w.polls + fuel,
           trace := w.trace ++ pollTrace cid fuel })) ∧
    (∀ fuel, ∃ ext, ((wait_healtcheck cid fuel) w).2.trace = w.trace ++ ext ∧
      ∀ ms, Op.sleep ms ∈ ext → ms = 100) := by
  refine ⟨?_, ?_, ?_⟩
  · intro j fuel Hb Hj Hf
    exact wait_spec j st fuel w cid (fun k _ => Hin k) Hb Hj Hf
  · intro Hnever fuel
    exact wait_stuck fuel st w cid Hin Hnever
  · intro fuel
    obtain ⟨ext, hext, hp⟩ := wait_ext cid fuel w
    refine ⟨ext, hext, ?_⟩
    intro ms hms
    rcases hp _ hms with h1 | h1 | ⟨s2, h1⟩
    · exact absurd h1 (by simp)
    · simpa using h1
    · exact absurd h1 (by simp)

/-- C2 witness: on the demo engine the container is unhealthy at the
first poll and healthy at the second, so the loop returns after two
polls with two fixed sleeps. -/
theorem C2_witness :
    wait_healtcheck "c0" 3 (World.init demoEngine) =
      (Except.ok true,
       { World.init demoEngine with
         polls := (World.init demoEngine).polls + (1 + 1),
         trace := (World.init demoEngine).trace ++ pollTrace "c0" (1 + 1)
           ++ [Op.print "Container is healthy!"] }) := by
  exact (C2_wait_healtcheck_poll "c0" (World.init demoEngine) demoAttrs
    (by intro k; simp [World.init, demoEngine])).1 1 3
    (by
      intro k hk
      have hk0 : k = 0 := by omega
      subst hk0
      decide)
    (by decide)
    (by omega)

/-- C6: after the started container reports healthy, the subcommand
prints the container's assigned addresses: the header line, then for
each network in the engine's network settings the network name followed
by the container's IP address on it.  Stated for `print_network_settings`
itself and for the full subcommand pipeline. -/
theorem C6_prints_network_addresses :
    (∀ (cid : String) (w : World) (a : ContainerAttrs),
      w.eng.inspectResp cid w.polls = Except.ok a →
      print_network_settings cid w =
        (Except.ok (),
         { w with
           polls := w.polls + 1,
           trace := w.trace
             ++ [Op.print "Container IPs:", Op.containersGet cid]
             ++ a.networks.map
                  (fun p => Op.print ("\t" ++ p.1 ++ ": " ++ p.2)) })) ∧
    (∀ (repo tag network : String) (cfgOf : String → RunConfig) (fuel : Nat)
       (w : World) (img : Image) (t : String) (ts : List String)
       (ci : ContainerInfo) (st : Nat → ContainerAttrs) (j : Nat),
       w.eng.registry repo tag = Except.ok img →
       img.repoTags = t :: ts →
       w.eng.runResp (cfgOf t) = Except.ok ci →
       (∀ k, k ≤ j + 1 →
         w.eng.inspectResp ci.id (w.polls + k) = Except.ok (st k)) →
       (∀ k, k < j → (st k).healthStatus ≠ "healthy") →
       (st j).healthStatus = "healthy" →
       j < fuel →
       service_cmd repo tag network cfgOf fuel w =
         (Except.ok true,
          { w with
            eng := { w.eng with networks := netUpd network w.eng.networks },
            polls := w.polls + (j + 2),
            trace := w.trace ++ [Op.imagesPull repo tag]
              ++ netExt network w.eng.networks
              ++ [Op.containersRun (cfgOf t), Op.print (startedLine ci)]
              ++ pollTrace ci.id (j + 1)
              ++ [Op.print "Container is healthy!", Op.print "Container IPs:",
                  Op.containersGet ci.id]
              ++ (st (j + 1)).networks.map
                   (fun p => Op.print ("\t" ++ p.1 ++ ": " ++ p.2)) })) := by
  constructor
  · intro cid w a h
    simpa [ipLines] using print_network_settings_ok h
  · intro repo tag network cfgOf fuel w img t ts ci st j H1 H2 H3 H4 H5 H6 H7
    simpa [ipLines] using service_cmd_spec H1 H2 H3 H4 H5 H6 H7

/-- C7: every engine error other than the network-not-found case during
the network lookup propagates uncaught out of the subcommand, and no
operation is retried: a pull error ends each subcommand's trace at the
pull call, and for the common pipeline a run error, a poll error, or a
settings-inspection error ends the trace at the failing call. -/
theorem C7_errors_propagate :
    (∀ (name : Option String) (db_name network : String) (port : Nat)
       (tag : String) (fuel : Nat) (w : World) (e : Err),
       w.eng.registry "postgres" tag = Except.error e →
       pg name db_name network port tag fuel w =
         (Except.error e,
          { w with trace := w.trace ++ [Op.imagesPull "postgres" tag] })) ∧
    (∀ (name : Option String) (db_name : String) (port : Nat)
       (network tag : String) (fuel : Nat) (w : World) (e : Err),
       w.eng.registry "timescale/timescaledb" tag = Except.error e →
       timescale name db_name port network tag fuel w =
         (Except.error e,
          { w with
            trace := w.trace ++ [Op.imagesPull "timescale/timescaledb" tag] })) ∧
    (∀ (name : Option String) (port ui_port : Nat)
       (username password network tag : String) (fuel : Nat) (w : World)
       (e : Err),
       w.eng.registry "rabbitmq" tag = Except.error e →
       rmq name port ui_port username password network tag fuel w =
         (Except.error e,
          { w with trace := w.trace ++ [Op.imagesPull "rabbitmq" tag] })) ∧
    (∀ (name : Option String) (port : Nat) (network tag : String)
       (fuel : Nat) (w : World) (e : Err),
       w.eng.registry "redis" tag = Except.error e →
       redis name port network tag fuel w =
         (Except.error e,
          { w with trace := w.trace ++ [Op.imagesPull "redis" tag] })) ∧
    (∀ (name : Option String) (port : Nat) (network tag : String)
       (fuel : Nat) (w : World) (e : Err),
       w.eng.registry "scylladb/scylla" tag = Except.error e →
       scylla name port network tag fuel w =
         (Except.error e,
          { w with trace := w.trace ++ [Op.imagesPull "scylladb/scylla" tag] })) ∧
    (∀ (name : Option String) (port : Nat) (network tag : String)
       (fuel : Nat) (w : World) (e : Err),
       w.eng.registry "nats" tag = Except.error e →
       nats name port network tag fuel w =
         (Except.error e,
          { w with trace := w.trace ++ [Op.imagesPull "nats" tag] })) ∧
    (∀ (name : Option String) (network : String) (port : Nat) (tag : String)
       (fuel : Nat) (w : World) (e : Err),
       w.eng.registry "bitnami/zookeeper" tag = Except.error e →
       zk name network port tag fuel w =
         (Except.error e,
          { w with trace := w.trace ++ [Op.imagesPull "bitnami/zookeeper" tag] })) ∧
    (∀ (name : Option String) (network : String) (port : Nat) (tag : String)
       (fuel : Nat) (w : World) (e : Err),
       w.eng.registry "bitnami/kafka" tag = Except.error e →
       kafka name network port tag fuel w =
         (Except.error e,
          { w with trace := w.trace ++ [Op.imagesPull "bitnami/kafka" tag] })) ∧
    (∀ (repo tag network : String) (cfgOf : String → RunConfig) (fuel : Nat)
       (w : World) (img : Image) (t : String) (ts : List String) (e : Err),
       w.eng.registry repo tag = Except.ok img →
       img.repoTags = t :: ts →
       w.eng.runResp (cfgOf t) = Except.error e →
       service_cmd repo tag network cfgOf fuel w =
         (Except.error e,
          { w with
            eng := { w.eng with networks := netUpd network w.eng.networks },
            trace := w.trace ++ [Op.imagesPull repo tag]
              ++ netExt network w.eng.networks
              ++ [Op.containersRun (cfgOf t)] })) ∧
    (∀ (repo tag network : String) (cfgOf : String → RunConfig) (fuel : Nat)
       (w : World) (img : Image) (t : String) (ts : List String)
       (ci : ContainerInfo) (st : Nat → ContainerAttrs) (j : Nat) (e : Err),
       w.eng.registry repo tag = Except.ok img →
       img.repoTags = t :: ts →
       w.eng.runResp (cfgOf t) = Except.ok ci →
       (∀ k, k < j →
         w.eng.inspectResp ci.id (w.polls + k) = Except.ok (st k)) →
       (∀ k, k < j → (st k).healthStatus ≠ "healthy") →
       w.eng.inspectResp ci.id (w.polls + j) = Except.error e →
       j < fuel →
       service_cmd repo tag network cfgOf fuel w =
         (Except.error e,
          { w with
            eng := { w.eng with networks := netUpd network w.eng.networks },
            polls := w.polls + j + 1,
            trace := w.trace ++ [Op.imagesPull repo tag]
              ++ netExt network w.eng.networks
              ++ [Op.containersRun (cfgOf t), Op.print (startedLine ci)]
              ++ pollTrace ci.id j ++ [Op.containersGet ci.id] })) ∧
    (∀ (repo tag network : String) (cfgOf : String → RunConfig) (fuel : Nat)
       (w : World) (img : Image) (t : String) (ts : List String)
       (ci : ContainerInfo) (st : Nat → ContainerAttrs) (j : Nat) (e : Err),
       w.eng.registry repo tag = Except.ok img →
       img.repoTags = t :: ts →
       w.eng.runResp (cfgOf t) = Except.ok ci →
       (∀ k, k ≤ j →
         w.eng.inspectResp ci.id (w.polls + k) = Except.ok (st k)) →
       (∀ k, k < j → (st k).healthStatus ≠ "healthy") →
       (st j).healthStatus = "healthy" →
       w.eng.inspectResp ci.id (w.polls + (j + 1)) = Except.error e →
       j < fuel →
       service_cmd repo tag network cfgOf fuel w =
         (Except.error e,
          { w with
            eng := { w.eng with networks := netUpd network w.eng.networks },
            polls := w.polls + (j + 2),
            trace := w.trace ++ [Op.imagesPull repo tag]
              ++ netExt network w.eng.networks
              ++ [Op.containersRun (cfgOf t), Op.print (startedLine ci)]
              ++ pollTrace ci.id (j + 1)
              ++ [Op.print "Container is healthy!", Op.print "Container IPs:",
                  Op.containersGet ci.id] })) := by
  refine ⟨?_, ?_, ?_, ?_, ?_, ?_, ?_, ?_, ?_, ?_, ?_⟩
  · intro name db_name network port tag fuel w e H
    simp only [pg]
    exact service_cmd_pull_err H
  · intro name db_name port network tag fuel w e H
    simp only [timescale]
    exact service_cmd_pull_err H
  · intro name port ui_port username password network tag fuel w e H
    simp only [rmq]
    exact service_cmd_pull_err H
  · intro name port network tag fuel w e H
    simp only [redis]
    exact service_cmd_pull_err H
  · intro name port network tag fuel w e H
    simp only [scylla]
    exact service_cmd_pull_err H
  · intro name port network tag fuel w e H
    simp only [nats]
    exact service_cmd_pull_err H
  · intro name network port tag fuel w e H
    simp only [zk]
    exact service_cmd_pull_err H
  · intro name network port tag fuel w e H
    simp only [kafka]
    exact service_cmd_pull_err H
  · intro repo tag network cfgOf fuel w img t ts e H1 H2 H3
    exact service_cmd_run_err H1 H2 H3
  · intro repo tag network cfgOf fuel w img t ts ci st j e H1 H2 H3 H4 H5 H6 H7
    exact service_cmd_poll_err H1 H2 H3 H4 H5 H6 H7
  · intro repo tag network cfgOf fuel w img t ts ci st j e H1 H2 H3 H4 H5 H6 H7 H8
    exact service_cmd_settings_err H1 H2 H3 H4 H5 H6 H7 H8

/-- C1 witness: running `pg` against the demo engine records exactly the
expected create-container call. -/
theorem C1_witness :
    (demoEngine.registry "postgres" "16.3-bookworm"
        = Except.ok { repoTags := ["postgres:16.3-bookworm"] }) ∧
    runCalls ((pg (some "a") "mydb" "netA" 6000 "16.3-bookworm" 3
        (World.init demoEngine)).2.trace)
      = [{ name := some "a", image := "postgres:16.3-bookworm", remove := true,
           detach := true, network := "netA", hostname := "a", command := none,
           healthcheck :=
             { test := HCTest.str ("pg_isready -U " ++ "mydb"),
               interval := 2000000000, timeout := 3000000000, retries := 40 },
           ports := [("5432", 6000)],
           volumes := some [{ volume := "a" ++ "-pg-db",
                              bind := "/var/lib/postgresql/data",
                              mode := "rw" }],
           environment :=
             [("POSTGRES_PASSWORD", "mydb"), ("POSTGRES_USER", "mydb"),
              ("POSTGRES_DB", "mydb")] }] := by
  refine ⟨rfl, ?_⟩
  have h := C1_one_create_container_call.1 (some "a") "mydb" "netA" 6000
    "16.3-bookworm" 3 (World.init demoEngine)
    { repoTags := ["postgres:16.3-bookworm"] } "postgres:16.3-bookworm" []
    rfl rfl
  simpa [World.init, runCalls] using h

/-- C4 witness: running `redis` against the demo engine produces exactly
the sequential trace pull, network lookup and create, run, announce, two
polls, healthy message, network-settings printing. -/
theorem C4_witness :
    redis none 6379 "net0" "7-bookworm" 3 (World.init demoEngine) =
      (Except.ok true,
       { World.init demoEngine with
         eng := { (World.init demoEngine).eng with
           networks := netUpd "net0" (World.init demoEngine).eng.networks },
         polls := (World.init demoEngine).polls + (1 + 2),
         trace := (World.init demoEngine).trace
           ++ [Op.imagesPull "redis" "7-bookworm"]
           ++ netExt "net0" (World.init demoEngine).eng.networks
           ++ [Op.containersRun
                 (redisConfig none 6379 "net0" "postgres:16.3-bookworm"),
               Op.print (startedLine
                 { cname := "demo", shortId := "ab12", id := "c0" })]
           ++ pollTrace "c0" (1 + 1)
           ++ [Op.print "Container is healthy!", Op.print "Container IPs:",
               Op.containersGet "c0"]
           ++ ipLines (demoAttrs (1 + 1)).networks }) := by
  exact C4_strict_sequential_order.2.2.2.1 none 6379 "net0" "7-bookworm" 3
    (World.init demoEngine) { repoTags := ["postgres:16.3-bookworm"] }
    "postgres:16.3-bookworm" [] { cname := "demo", shortId := "ab12", id := "c0" }
    demoAttrs 1
    rfl rfl rfl
    (by intro k hk; simp [World.init, demoEngine])
    (by
      intro k hk
      have hk0 : k = 0 := by omega
      subst hk0
      decide)
    (by decide)
    (by omega)

/-- C6 witness: printing the network settings of the healthy demo
container emits the header and the single network line with its IP. -/
theorem C6_witness :
    print_network_settings "c0" { eng := demoEngine, polls := 1, trace := [] } =
      (Except.ok (),
       { eng := demoEngine, polls := 2,
         trace := [Op.print "Container IPs:", Op.containersGet "c0",
                   Op.print ("\t" ++ "cont_net" ++ ": " ++ "172.18.0.2")] }) := by
  have h := C6_prints_network_addresses.1 "c0"
    { eng := demoEngine, polls := 1, trace := [] } (demoAttrs 1) rfl
  simpa [demoAttrs] using h

/-- C7 witness: on the engine whose registry fails, `pg` propagates the
API error and its trace ends at the failed pull. -/
theorem C7_witness :
    ((World.init pullFailEngine).eng.registry "postgres" "16.3-bookworm"
        = Except.error (Err.apiError 500)) ∧
    pg none "postgres" "cont_net" 5432 "16.3-bookworm" 1
        (World.init pullFailEngine) =
      (Except.error (Err.apiError 500),
       { World.init pullFailEngine with
         trace := (World.init pullFailEngine).trace
           ++ [Op.imagesPull "postgres" "16.3-bookworm"] }) := by
  exact ⟨rfl, C7_errors_propagate.1 none "postgres" "cont_net" 5432
    "16.3-bookworm" 1 (World.init pullFailEngine) (Err.apiError 500) rfl⟩
